import Mathlib

/-!
AndroidAccessory (libaccessoryhost)

A shallow embedding of `AndroidAccessory.cpp` / `AndroidAccessory.h`.

The class keeps a handle `_dev` on an open USB device and talks to it through
the `usbhost` library and, in its two transfer methods, through the older
`usb` object.  Those libraries are not part of the repository: every call made
on them is recorded, in order, in a `world`, and what a call answers is given
by a `usb_host`, which may look at everything recorded so far.

Conventions of the embedding:
* a C string is the list of its bytes before the terminating NUL;
* a pointer that may be NULL is an `Option`;
* `fprintf (stderr, fmt, ...)` and `Serial.print (msg)` append the format
  string to `world.stderr` and `world.serial`;
* `nanosleep` changes nothing that is modelled and is left out.
-/

/-! ## The C library and `linux/usb/ch9.h` -/

/-- The bytes of a C string, without its terminating NUL. -/
abbrev cstring := List Nat

/-- The length of a C string. -/
def strlen (s : cstring) : Nat := s.length

/-- Comparison of two C strings: zero exactly when they are equal, otherwise
the sign of the lexicographic comparison. -/
def strcmp (a b : cstring) : Int :=
  if a = b then 0 else if a < b then -1 else 1

/-- The value of `USB_DT_INTERFACE` in ch9.h. -/
def USB_DT_INTERFACE : Nat := 0x04
/-- The value of `USB_DT_ENDPOINT` in ch9.h. -/
def USB_DT_ENDPOINT : Nat := 0x05
/-- The value of `USB_ENDPOINT_DIR_MASK` in ch9.h. -/
def USB_ENDPOINT_DIR_MASK : Nat := 0x80
/-- The value of `USB_DIR_OUT` in ch9.h. -/
def USB_DIR_OUT : Nat := 0
/-- The value of `USB_DIR_IN` in ch9.h. -/
def USB_DIR_IN : Nat := 0x80
/-- The value of `USB_TYPE_VENDOR` in ch9.h. -/
def USB_TYPE_VENDOR : Nat := 0x40

/-! ## Constants of AndroidAccessory.cpp -/

def USB_ACCESSORY_VENDOR_ID : Nat := 0x18D1
def USB_ACCESSORY_PRODUCT_ID : Nat := 0x2D00
def USB_ACCESSORY_ADB_PRODUCT_ID : Nat := 0x2D01
def ACCESSORY_STRING_MANUFACTURER : Nat := 0
def ACCESSORY_STRING_MODEL : Nat := 1
def ACCESSORY_STRING_DESCRIPTION : Nat := 2
def ACCESSORY_STRING_VERSION : Nat := 3
def ACCESSORY_STRING_URI : Nat := 4
def ACCESSORY_STRING_SERIAL : Nat := 5
def ACCESSORY_GET_PROTOCOL : Nat := 51
def ACCESSORY_SEND_STRING : Nat := 52
def ACCESSORY_START : Nat := 53

/-! ## Devices and descriptors -/

/-- One descriptor of a device: the type byte of its header and the byte that
follows the header.  Read through `usb_interface_descriptor` that byte is
`bInterfaceNumber`, read through `usb_endpoint_descriptor` it is
`bEndpointAddress`. -/
structure usb_descriptor where
  bDescriptorType : Nat
  byte2 : Nat
deriving DecidableEq, Repr

/-- The field `bInterfaceNumber` of a descriptor read as an interface descriptor. -/
def usb_descriptor.bInterfaceNumber (d : usb_descriptor) : Nat := d.byte2

/-- The field `bEndpointAddress` of a descriptor read as an endpoint descriptor. -/
def usb_descriptor.bEndpointAddress (d : usb_descriptor) : Nat := d.byte2

/-- An open device as `usbhost` presents it: its name, its two identifiers and
the descriptors its iterator yields, in order. -/
structure usb_device where
  name : cstring
  vendorId : Nat
  productId : Nat
  descriptors : List usb_descriptor
deriving DecidableEq, Repr

/-- The device name, as `usb_device_get_name` returns it. -/
def usb_device_get_name (dev : usb_device) : cstring := dev.name

/-- The vendor identifier, a `uint16_t`. -/
def usb_device_get_vendor_id (dev : usb_device) : Nat := dev.vendorId % 65536

/-- The product identifier, a `uint16_t`. -/
def usb_device_get_product_id (dev : usb_device) : Nat := dev.productId % 65536

/-! ## The recorded calls and the host that answers them -/

/-- The arguments of `usb_device_control_transfer`; `buffer` holds the bytes
handed to the device and is empty for a transfer that reads or has no payload. -/
structure control_request where
  dev : cstring
  requestType : Nat
  request : Nat
  value : Nat
  index : Nat
  buffer : List Nat
  length : Nat
  timeout : Nat
deriving DecidableEq, Repr

/-- A call made on the USB libraries, with what it returned. -/
inductive usb_call where
  | control_transfer (rq : control_request) (ret : Int)
  | claim_interface (dev : cstring) (interface : Nat) (ret : Int)
  | close (dev : cstring)
  | newInTransfer (addr : Nat) (ep : Nat) (nbytes : Int) (nakLimit : Nat) (ret : Int)
  | outTransfer (addr : Nat) (ep : Nat) (nbytes : Int) (data : List Nat)
deriving DecidableEq, Repr

/-- What the USB libraries answer.  Every answer may depend on the calls
recorded so far.  A control transfer answers its return value and the 16-bit
quantity the device wrote into the buffer of a two-byte read. -/
structure usb_host where
  control_transfer : List usb_call → control_request → Int × Nat
  claim_interface : List usb_call → cstring → Nat → Int
  newInTransfer : List usb_call → Nat → Nat → Int → Nat → Int × List Nat

/-- Everything the code did to the outside, oldest first. -/
structure world where
  usb : List usb_call
  stderr : List String
  serial : List String
deriving DecidableEq, Repr

/-- Appends a call to the record. -/
def world.call (w : world) (c : usb_call) : world :=
  ⟨w.usb ++ [c], w.stderr, w.serial⟩

/-- Appends a message to standard error. -/
def world.fprintf_stderr (w : world) (fmt : String) : world :=
  ⟨w.usb, w.stderr ++ [fmt], w.serial⟩

/-- Appends a message to the serial console. -/
def world.Serial_print (w : world) (msg : String) : world :=
  ⟨w.usb, w.stderr, w.serial ++ [msg]⟩

/-- The library call `usb_device_control_transfer`: asks the host, records the
call, and returns the host's answer. -/
def usb_device_control_transfer (h : usb_host) (w : world) (rq : control_request) :
    (Int × Nat) × world :=
  let r := h.control_transfer w.usb rq
  (r, w.call (usb_call.control_transfer rq r.1))

/-- The library call `usb_device_claim_interface`. -/
def usb_device_claim_interface (h : usb_host) (w : world) (dev : usb_device)
    (interface : Nat) : Int × world :=
  let r := h.claim_interface w.usb dev.name interface
  (r, w.call (usb_call.claim_interface dev.name interface r))

/-- The library call `usb_device_close`. -/
def usb_device_close (w : world) (dev : usb_device) : world :=
  w.call (usb_call.close dev.name)

/-! ## The class -/

/-- The fields of the class that the modelled methods read or write.  `in_`
and `out` are the endpoint numbers the two transfer methods use (`in` and
`out` in the source, which the header does not declare). -/
structure AndroidAccessory where
  _manufacturer : cstring
  _model : cstring
  _description : cstring
  _version : cstring
  _uri : cstring
  _serial : cstring
  _inited : Bool
  _connected : Bool
  _dev : Option usb_device
  _epRead : Int
  _epWrite : Int
  in_ : Nat
  out : Nat
deriving DecidableEq, Repr

namespace AndroidAccessory

/-- The method `_disconnect`: closes the held device if there is one, then
clears the handle, the flag and both endpoints. -/
def _disconnect (a : AndroidAccessory) (w : world) : AndroidAccessory × world :=
  let w1 := match a._dev with
    | some d => usb_device_close w d
    | none => w
  (⟨a._manufacturer, a._model, a._description, a._version, a._uri, a._serial,
    a._inited, false, none, -1, -1, a.in_, a.out⟩, w1)

/-- The method `_isAccessoryDevice`. -/
def _isAccessoryDevice (dev : usb_device) : Bool :=
  let vendorId := usb_device_get_vendor_id dev
  let productId := usb_device_get_product_id dev
  (vendorId == 0x18d1 || vendorId == 0x22B8) &&
    (productId == 0x2D00 || productId == 0x2D01)

/-- The method `_sendString (index, str)` as AndroidAccessory.cpp defines it.
Its body works on the held device `_dev`; without one it only complains.  The
return value of the transfer is dropped.  The header declares the method with
a further first parameter `dev`, which the body in the .cpp file neither takes
nor uses. -/
def _sendString (a : AndroidAccessory) (h : usb_host) (w : world)
    (index : Nat) (str : cstring) : world :=
  match a._dev with
  | none => w.fprintf_stderr "%s: Fail: device not opened!"
  | some d =>
    (usb_device_control_transfer h w
      ⟨d.name, USB_DIR_OUT ||| USB_TYPE_VENDOR, ACCESSORY_SEND_STRING, 0, index,
        str ++ [0], strlen str + 1, 0⟩).2

/-- The method `_getProtocol`.  The comparison of `ret` with `sizeof (protocol)`
is made on `size_t`; see `int_as_size_t_eq_two`. -/
def _getProtocol (h : usb_host) (w : world) (dev : usb_device) : Int × world :=
  let r := usb_device_control_transfer h w
    ⟨dev.name, USB_DIR_IN ||| USB_TYPE_VENDOR, ACCESSORY_GET_PROTOCOL, 0, 0, [], 2, 0⟩
  let ret := r.1.1
  let protocol := r.1.2 % 65536
  if ret ≠ 2 then
    (-1, r.2.fprintf_stderr "Failed to get protocol!")
  else
    ((protocol : Int), r.2)

/-- The method `_switchDevice`.  The calls written `getProtocol` and
`sendString (dev, ...)` in the source are the methods `_getProtocol` and
`_sendString`, and `device` is `dev`.  The argument `dev` of each
`sendString (dev, ...)` has no effect, since the body of `_sendString` works on
`_dev`. -/
def _switchDevice (a : AndroidAccessory) (h : usb_host) (w : world)
    (dev : usb_device) : Bool × world :=
  let p := _getProtocol h w dev
  let protocol := p.1
  if protocol = 1 then
    let w0 := p.2.Serial_print "device supports protcol 1\n"
    let w1 := _sendString a h w0 ACCESSORY_STRING_MANUFACTURER a._manufacturer
    let w2 := _sendString a h w1 ACCESSORY_STRING_MODEL a._model
    let w3 := _sendString a h w2 ACCESSORY_STRING_DESCRIPTION a._description
    let w4 := _sendString a h w3 ACCESSORY_STRING_VERSION a._version
    let w5 := _sendString a h w4 ACCESSORY_STRING_URI a._uri
    let w6 := _sendString a h w5 ACCESSORY_STRING_SERIAL a._serial
    let r := usb_device_control_transfer h w6
      ⟨dev.name, USB_DIR_OUT ||| USB_TYPE_VENDOR, ACCESSORY_START, 0, 0, [], 0, 0⟩
    let ret := r.1.1
    (if ret = 0 then true else false, r.2)
  else
    (false, p.2.Serial_print "could not read device protocol version\n")

/-- A non-NULL pointer into the descriptors of a device: the position it
points at and the descriptor found there. -/
structure desc_ptr where
  pos : Nat
  desc : usb_descriptor
deriving DecidableEq, Repr

/-- The three pointers the loop of `_findEndpoints` maintains. -/
structure found where
  intf : Option desc_ptr
  ep1 : Option desc_ptr
  ep2 : Option desc_ptr
deriving DecidableEq, Repr

/-- The body of the loop of `_findEndpoints` for the descriptor `desc`, which
stands at position `pos`. -/
def loop_body (desc : usb_descriptor) (pos : Nat) (v : found) : found :=
  if desc.bDescriptorType = USB_DT_INTERFACE then
    ⟨some ⟨pos, desc⟩, v.ep1, v.ep2⟩
  else if desc.bDescriptorType = USB_DT_ENDPOINT then
    if v.ep1.isSome then
      ⟨v.intf, v.ep1, some ⟨pos, desc⟩⟩
    else
      ⟨v.intf, some ⟨pos, desc⟩, v.ep2⟩
  else v

/-- The loop of `_findEndpoints` over the descriptors not yet read, the first
of which stands at position `pos`: it goes on while there is a descriptor and
one of the three pointers is still NULL. -/
def loop : List usb_descriptor → Nat → found → found
  | [], _, v => v
  | desc :: rest, pos, v =>
    if v.intf.isNone || v.ep1.isNone || v.ep2.isNone then
      loop rest (pos + 1) (loop_body desc pos v)
    else v

/-- The method `_findEndpoints`: the result, the two output parameters
`*epRead` and `*epWrite` (given with the values they hold at the call), and
the world. -/
def _findEndpoints (h : usb_host) (w : world) (dev : usb_device)
    (epRead epWrite : Int) : Bool × Int × Int × world :=
  let v := loop dev.descriptors 0 ⟨none, none, none⟩
  match v.intf with
  | none => (false, epRead, epWrite, w.fprintf_stderr "interface not found\n")
  | some intf =>
    match v.ep1, v.ep2 with
    | some ep1, some ep2 =>
      let c := usb_device_claim_interface h w dev intf.desc.bInterfaceNumber
      if c.1 ≠ 0 then
        (false, epRead, epWrite,
          c.2.fprintf_stderr "usb_device_claim_interface failed errno: %d\n")
      else if ep1.desc.bEndpointAddress &&& USB_ENDPOINT_DIR_MASK = USB_DIR_IN then
        (true, (ep1.desc.bEndpointAddress : Int), (ep2.desc.bEndpointAddress : Int), c.2)
      else
        (true, (ep2.desc.bEndpointAddress : Int), (ep1.desc.bEndpointAddress : Int), c.2)
    | _, _ => (false, epRead, epWrite, w.fprintf_stderr "endpoints not found\n")

/-- The method `_cbHostDeviceRemoved`: the value returned and the object and
world after the call. -/
def _cbHostDeviceRemoved (a : AndroidAccessory) (w : world) (devname : cstring) :
    Int × AndroidAccessory × world :=
  match a._dev with
  | some d =>
    if strcmp (usb_device_get_name d) devname = 0 then
      let r := _disconnect a w
      (1, r.1, r.2)
    else (0, a, w)
  | none => (0, a, w)

/-- The method `read`: one `usb.newInTransfer (1, in, len, buff, nakLimit)`,
whose return value is returned; the bytes it put into `buff` come with it. -/
def read (a : AndroidAccessory) (h : usb_host) (w : world) (len : Int)
    (nakLimit : Nat) : (Int × List Nat) × world :=
  let r := h.newInTransfer w.usb 1 a.in_ len nakLimit
  (r, w.call (usb_call.newInTransfer 1 a.in_ len nakLimit r.1))

/-- The method `write`: one `usb.outTransfer (1, out, len, buff)`, then `len`
is returned. -/
def write (a : AndroidAccessory) (w : world) (buff : List Nat) (len : Int) :
    Int × world :=
  (len, w.call (usb_call.outTransfer 1 a.out len buff))

end AndroidAccessory

/-! ## Definitions used in the statements

Sample objects for the closed statements, the requests the handshake sends, and
the predicates that describe the loop of `_findEndpoints`. -/

/-- A device named "/dev/1" that is not in accessory mode and has no descriptors. -/
def sample_device : usb_device := ⟨[47, 100, 101, 118, 47, 49], 0x0403, 0x6001, []⟩

/-- An accessory object that holds `sample_device`, is connected and has its
endpoints assigned. -/
def sample_accessory : AndroidAccessory :=
  ⟨[65], [66], [67], [68], [69], [70], true, true, some sample_device, 129, 2, 1, 2⟩

/-- An accessory object as the constructor leaves it: no device is held. -/
def fresh_accessory : AndroidAccessory :=
  ⟨[65], [66], [67], [68], [69], [70], true, false, none, -1, -1, 1, 2⟩

/-- A second device, named "/dev/9". -/
def other_device : usb_device := ⟨[47, 100, 101, 118, 47, 57], 0x0403, 0x6001, []⟩

/-- An accessory object that holds `other_device`. -/
def other_holding_accessory : AndroidAccessory :=
  ⟨[65], [66], [67], [68], [69], [70], true, false, some other_device, -1, -1, 1, 2⟩

/-- The world in which nothing has happened yet. -/
def empty_world : world := ⟨[], [], []⟩

/-- A host on which every call succeeds: the protocol query answers two bytes
holding version 1, any other control transfer answers the length it was given,
a claim answers 0 and an in-transfer answers 0 with no data. -/
def good_host : usb_host :=
  ⟨fun _ rq => if rq.request = ACCESSORY_GET_PROTOCOL then (2, 1) else ((rq.length : Int), 0),
   fun _ _ _ => 0,
   fun _ _ _ _ _ => (0, [])⟩

/-- The host `good_host`, except that the transfer of the string with index 2
fails with -1. -/
def string2_failing_host : usb_host :=
  ⟨fun _ rq =>
      if rq.request = ACCESSORY_GET_PROTOCOL then (2, 1)
      else if rq.request = ACCESSORY_SEND_STRING ∧ rq.index = 2 then (-1, 0)
      else ((rq.length : Int), 0),
   fun _ _ _ => 0,
   fun _ _ _ _ _ => (0, [])⟩

/-- A host whose protocol query answers two bytes holding version 2. -/
def version2_host : usb_host :=
  ⟨fun _ _ => (2, 2), fun _ _ _ => 0, fun _ _ _ _ _ => (0, [])⟩

/-- The control request of the protocol query made on `dev`. -/
def get_protocol_request (dev : usb_device) : control_request :=
  ⟨dev.name, 0xC0, 51, 0, 0, [], 2, 0⟩

/-- The control request that sends the string `str` with index `index` to `d`. -/
def send_string_request (d : usb_device) (index : Nat) (str : cstring) : control_request :=
  ⟨d.name, 0x40, 52, 0, index, str ++ [0], str.length + 1, 0⟩

/-- The control request that starts accessory mode on `dev`. -/
def start_request (dev : usb_device) : control_request :=
  ⟨dev.name, 0x40, 53, 0, 0, [], 0, 0⟩

/-- Whether a descriptor is an interface descriptor. -/
def is_interface (d : usb_descriptor) : Bool := decide (d.bDescriptorType = USB_DT_INTERFACE)

/-- Whether a descriptor is an endpoint descriptor. -/
def is_endpoint (d : usb_descriptor) : Bool := decide (d.bDescriptorType = USB_DT_ENDPOINT)

/-- The start of the loop: the three pointers are NULL. -/
def no_pointers : AndroidAccessory.found := ⟨none, none, none⟩

/-- The loop body applied to every descriptor of a list, without the stop
test; used to describe what the loop has done when it stops. -/
def run_body : List usb_descriptor → Nat → AndroidAccessory.found → AndroidAccessory.found
  | [], _, v => v
  | desc :: rest, pos, v => run_body rest (pos + 1) (AndroidAccessory.loop_body desc pos v)

/-- The stop test of the loop: the three pointers are set. -/
def all_set (v : AndroidAccessory.found) : Prop :=
  v.intf.isSome = true ∧ v.ep1.isSome = true ∧ v.ep2.isSome = true

/-- A list of descriptors holds an interface descriptor and two endpoint
descriptors. -/
def has_all (p : List usb_descriptor) : Prop :=
  p.filter is_interface ≠ [] ∧ 2 ≤ (p.filter is_endpoint).length

instance (p : List usb_descriptor) : Decidable (has_all p) := by
  unfold has_all
  infer_instance

/-- The number of endpoint descriptors that follow the first interface
descriptor of a sequence, as the specification counts them. -/
def endpoints_after_interface (s : List usb_descriptor) : Nat :=
  (((s.dropWhile (fun d => !is_interface d)).drop 1).filter is_endpoint).length

/-- A device in accessory mode whose two endpoint descriptors come before its
only interface descriptor. -/
def endpoints_first_device : usb_device :=
  ⟨[47, 100, 101, 118, 47, 50], 0x18D1, 0x2D00, [⟨5, 0x81⟩, ⟨5, 0x02⟩, ⟨4, 0⟩]⟩

/-- A device in accessory mode with an interface 0 without endpoints followed
by an interface 1 with two endpoints. -/
def two_interface_device : usb_device :=
  ⟨[47, 100, 101, 118, 47, 51], 0x18D1, 0x2D00, [⟨4, 0⟩, ⟨4, 1⟩, ⟨5, 0x81⟩, ⟨5, 0x02⟩]⟩

/-- A device in accessory mode with an endpoint descriptor before its
interface descriptor and two after it. -/
def stray_endpoint_device : usb_device :=
  ⟨[47, 100, 101, 118, 47, 52], 0x18D1, 0x2D00, [⟨5, 0x83⟩, ⟨4, 0⟩, ⟨5, 0x81⟩, ⟨5, 0x02⟩]⟩

/-- A device in accessory mode with one interface and an IN endpoint followed
by an OUT endpoint. -/
def accessory_device : usb_device :=
  ⟨[47, 100, 101, 118, 47, 53], 0x18D1, 0x2D00, [⟨2, 1⟩, ⟨4, 0⟩, ⟨5, 0x81⟩, ⟨5, 0x02⟩]⟩

/-- The pointers of the loop point into the descriptors `s` before position
`pos`, at descriptors of the right type, and the first endpoint pointer points
before the second. -/
def pointers_ok (s : List usb_descriptor) (pos : Nat) (v : AndroidAccessory.found) : Prop :=
  (∀ x, v.intf = some x → x.pos < pos ∧ s[x.pos]? = some x.desc ∧
    x.desc.bDescriptorType = USB_DT_INTERFACE) ∧
  (∀ x, v.ep1 = some x → x.pos < pos ∧ s[x.pos]? = some x.desc ∧
    x.desc.bDescriptorType = USB_DT_ENDPOINT) ∧
  (∀ y, v.ep2 = some y → y.pos < pos ∧ s[y.pos]? = some y.desc ∧
    y.desc.bDescriptorType = USB_DT_ENDPOINT ∧ ∃ x, v.ep1 = some x ∧ x.pos < y.pos)

/-- Two states of the loop point at the same positions. -/
def same_positions (v v1 : AndroidAccessory.found) : Prop :=
  v.intf.map (fun x => x.pos) = v1.intf.map (fun x => x.pos) ∧
  v.ep1.map (fun x => x.pos) = v1.ep1.map (fun x => x.pos) ∧
  v.ep2.map (fun x => x.pos) = v1.ep2.map (fun x => x.pos)

/-! ## Auxiliary facts -/

/-- An `int` converted to a 64-bit `size_t` equals 2 exactly when it is 2, so
the test made by `_getProtocol` on `size_t` is the test on the integers. -/
theorem int_as_size_t_eq_two (ret : Int) (hlo : -2147483648 ≤ ret) (hhi : ret < 2147483648) :
    ret % 18446744073709551616 = 2 ↔ ret = 2 := by
  omega

/-! ## C1: the classifier -/

/-- C1. `_isAccessoryDevice` answers true exactly for the devices whose vendor
identifier is 0x18D1 or 0x22B8 and whose product identifier is 0x2D00 or
0x2D01, that is for exactly four pairs; (0x18D1,0x2D00), (0x18D1,0x2D01) and
(0x22B8,0x2D00) are accepted and (0x0403,0x6001) is not. -/
theorem isAccessoryDevice_iff :
    (∀ dev : usb_device,
      (AndroidAccessory._isAccessoryDevice dev = true ↔
        (usb_device_get_vendor_id dev = 0x18D1 ∨ usb_device_get_vendor_id dev = 0x22B8) ∧
        (usb_device_get_product_id dev = 0x2D00 ∨ usb_device_get_product_id dev = 0x2D01)) ∧
      (AndroidAccessory._isAccessoryDevice dev = true ↔
        (usb_device_get_vendor_id dev, usb_device_get_product_id dev) ∈
          [(0x18D1, 0x2D00), (0x18D1, 0x2D01), (0x22B8, 0x2D00), (0x22B8, 0x2D01)])) ∧
    (∀ (name : cstring) (ds : List usb_descriptor),
      AndroidAccessory._isAccessoryDevice ⟨name, 0x18D1, 0x2D00, ds⟩ = true ∧
      AndroidAccessory._isAccessoryDevice ⟨name, 0x18D1, 0x2D01, ds⟩ = true ∧
      AndroidAccessory._isAccessoryDevice ⟨name, 0x22B8, 0x2D00, ds⟩ = true ∧
      AndroidAccessory._isAccessoryDevice ⟨name, 0x0403, 0x6001, ds⟩ = false) := by
  refine ⟨fun dev => ⟨?_, ?_⟩, fun name ds => ⟨rfl, rfl, rfl, rfl⟩⟩
  · simp [AndroidAccessory._isAccessoryDevice]
  · simp only [AndroidAccessory._isAccessoryDevice, Bool.and_eq_true, Bool.or_eq_true,
      beq_iff_eq, List.mem_cons, Prod.mk.injEq, List.mem_nil_iff, or_false]
    constructor
    · rintro ⟨hv | hv, hp | hp⟩ <;> simp [hv, hp]
    · rintro (⟨hv, hp⟩ | ⟨hv, hp⟩ | ⟨hv, hp⟩ | ⟨hv, hp⟩) <;> simp [hv, hp]

/-! ## C9: the detach handler -/

/-- C9. When a device is held and the notified name equals its name,
`_cbHostDeviceRemoved` returns 1, clears the handle, sets `_connected` to false
and sets both endpoints to -1; when no device is held or the names differ it
returns 0 and leaves the object and the world as they were. -/
theorem cbHostDeviceRemoved_effect (a : AndroidAccessory) (w : world) (devname : cstring) :
    (∀ d, a._dev = some d → usb_device_get_name d = devname →
      (AndroidAccessory._cbHostDeviceRemoved a w devname).1 = 1 ∧
      (AndroidAccessory._cbHostDeviceRemoved a w devname).2.1._dev = none ∧
      (AndroidAccessory._cbHostDeviceRemoved a w devname).2.1._connected = false ∧
      (AndroidAccessory._cbHostDeviceRemoved a w devname).2.1._epRead = -1 ∧
      (AndroidAccessory._cbHostDeviceRemoved a w devname).2.1._epWrite = -1) ∧
    ((a._dev = none ∨ ∃ d, a._dev = some d ∧ usb_device_get_name d ≠ devname) →
      AndroidAccessory._cbHostDeviceRemoved a w devname = (0, a, w)) := by
  constructor
  · intro d hd hname
    simp [AndroidAccessory._cbHostDeviceRemoved, AndroidAccessory._disconnect, hd, hname, strcmp]
  · rintro (hn | ⟨d, hd, hname⟩)
    · simp [AndroidAccessory._cbHostDeviceRemoved, hn]
    · have hs : strcmp (usb_device_get_name d) devname ≠ 0 := by
        unfold strcmp
        rw [if_neg hname]
        split <;> decide
      simp [AndroidAccessory._cbHostDeviceRemoved, hd, hs]

/-- C9 at concrete inputs: a matching name tears the session of
`sample_accessory` down, a different name leaves it alone. -/
theorem cbHostDeviceRemoved_effect_witness :
    ((AndroidAccessory._cbHostDeviceRemoved sample_accessory empty_world
        [47, 100, 101, 118, 47, 49]).1 = 1 ∧
      (AndroidAccessory._cbHostDeviceRemoved sample_accessory empty_world
        [47, 100, 101, 118, 47, 49]).2.1._dev = none ∧
      (AndroidAccessory._cbHostDeviceRemoved sample_accessory empty_world
        [47, 100, 101, 118, 47, 49]).2.1._connected = false ∧
      (AndroidAccessory._cbHostDeviceRemoved sample_accessory empty_world
        [47, 100, 101, 118, 47, 49]).2.1._epRead = -1 ∧
      (AndroidAccessory._cbHostDeviceRemoved sample_accessory empty_world
        [47, 100, 101, 118, 47, 49]).2.1._epWrite = -1) ∧
    AndroidAccessory._cbHostDeviceRemoved sample_accessory empty_world [47, 100, 101, 118, 47, 50]
      = (0, sample_accessory, empty_world) :=
  ⟨(cbHostDeviceRemoved_effect sample_accessory empty_world [47, 100, 101, 118, 47, 49]).1
      sample_device rfl rfl,
   (cbHostDeviceRemoved_effect sample_accessory empty_world [47, 100, 101, 118, 47, 50]).2
      (Or.inr ⟨sample_device, rfl, by decide⟩)⟩

/-! ## C2: the transfer methods after a detach -/

/-- C2 fails as stated. After the detach of the held device "/dev/1", `write`
of 16 bytes returns 16 and makes an out-transfer, and `read` makes an
in-transfer and returns what it returned. -/
theorem write_after_detach_still_transfers :
    (AndroidAccessory._cbHostDeviceRemoved sample_accessory empty_world
        [47, 100, 101, 118, 47, 49]).1 = 1 ∧
    (AndroidAccessory._cbHostDeviceRemoved sample_accessory empty_world
        [47, 100, 101, 118, 47, 49]).2.1._dev = none ∧
    AndroidAccessory.write
        (AndroidAccessory._cbHostDeviceRemoved sample_accessory empty_world
          [47, 100, 101, 118, 47, 49]).2.1
        (AndroidAccessory._cbHostDeviceRemoved sample_accessory empty_world
          [47, 100, 101, 118, 47, 49]).2.2
        [1, 2, 3, 4, 5, 6, 7, 8, 9, 10, 11, 12, 13, 14, 15, 16] 16
      = (16, ⟨[usb_call.close [47, 100, 101, 118, 47, 49],
              usb_call.outTransfer 1 2 16 [1, 2, 3, 4, 5, 6, 7, 8, 9, 10, 11, 12, 13, 14, 15, 16]],
            [], []⟩) ∧
    AndroidAccessory.read
        (AndroidAccessory._cbHostDeviceRemoved sample_accessory empty_world
          [47, 100, 101, 118, 47, 49]).2.1
        good_host
        (AndroidAccessory._cbHostDeviceRemoved sample_accessory empty_world
          [47, 100, 101, 118, 47, 49]).2.2
        16 32000
      = ((0, []), ⟨[usb_call.close [47, 100, 101, 118, 47, 49],
              usb_call.newInTransfer 1 1 16 32000 0], [], []⟩) := by
  decide

/-- C2, amended. After a detach whose name matches the held device, every
later `write` still makes exactly one out-transfer on endpoint `out` and
returns `len`, and every later `read` still makes exactly one in-transfer on
endpoint `in` and returns what the transfer returned; neither looks at the
connection state.  `w1` is the world at the time of the later call. -/
theorem transfers_after_detach (a : AndroidAccessory) (h : usb_host) (w w1 : world)
    (devname : cstring) (d : usb_device) (hd : a._dev = some d)
    (hname : usb_device_get_name d = devname)
    (buff : List Nat) (len : Int) (nakLimit : Nat) :
    (AndroidAccessory._cbHostDeviceRemoved a w devname).2.1._dev = none ∧
    (AndroidAccessory._cbHostDeviceRemoved a w devname).2.1._connected = false ∧
    AndroidAccessory.write (AndroidAccessory._cbHostDeviceRemoved a w devname).2.1 w1 buff len
      = (len, ⟨w1.usb ++ [usb_call.outTransfer 1 a.out len buff], w1.stderr, w1.serial⟩) ∧
    AndroidAccessory.read (AndroidAccessory._cbHostDeviceRemoved a w devname).2.1 h w1 len
        nakLimit
      = (h.newInTransfer w1.usb 1 a.in_ len nakLimit,
          ⟨w1.usb ++ [usb_call.newInTransfer 1 a.in_ len nakLimit
              (h.newInTransfer w1.usb 1 a.in_ len nakLimit).1],
            w1.stderr, w1.serial⟩) := by
  simp [AndroidAccessory._cbHostDeviceRemoved, AndroidAccessory._disconnect, hd, hname, strcmp,
    AndroidAccessory.write, AndroidAccessory.read, world.call]

/-- The amended C2 at a concrete input: `sample_accessory` after the detach of
"/dev/1", then a 3-byte write and a 3-byte read in the world the detach left. -/
theorem transfers_after_detach_witness :
    (AndroidAccessory._cbHostDeviceRemoved sample_accessory empty_world
        [47, 100, 101, 118, 47, 49]).2.1._dev = none ∧
    (AndroidAccessory._cbHostDeviceRemoved sample_accessory empty_world
        [47, 100, 101, 118, 47, 49]).2.1._connected = false ∧
    AndroidAccessory.write
        (AndroidAccessory._cbHostDeviceRemoved sample_accessory empty_world
          [47, 100, 101, 118, 47, 49]).2.1
        ⟨[usb_call.close [47, 100, 101, 118, 47, 49]], [], []⟩ [7, 8, 9] 3
      = (3, ⟨[usb_call.close [47, 100, 101, 118, 47, 49]] ++
              [usb_call.outTransfer 1 sample_accessory.out 3 [7, 8, 9]], [], []⟩) ∧
    AndroidAccessory.read
        (AndroidAccessory._cbHostDeviceRemoved sample_accessory empty_world
          [47, 100, 101, 118, 47, 49]).2.1 good_host
        ⟨[usb_call.close [47, 100, 101, 118, 47, 49]], [], []⟩ 3 32000
      = (good_host.newInTransfer [usb_call.close [47, 100, 101, 118, 47, 49]] 1
            sample_accessory.in_ 3 32000,
          ⟨[usb_call.close [47, 100, 101, 118, 47, 49]] ++
              [usb_call.newInTransfer 1 sample_accessory.in_ 3 32000
                (good_host.newInTransfer [usb_call.close [47, 100, 101, 118, 47, 49]] 1
                  sample_accessory.in_ 3 32000).1], [], []⟩) :=
  transfers_after_detach sample_accessory good_host empty_world
    ⟨[usb_call.close [47, 100, 101, 118, 47, 49]], [], []⟩ [47, 100, 101, 118, 47, 49]
    sample_device rfl rfl [7, 8, 9] 3 32000

/-! ## C6: the protocol query -/

/-- The request `_getProtocol` builds is `get_protocol_request`. -/
theorem get_protocol_request_eq (dev : usb_device) :
    (⟨dev.name, USB_DIR_IN ||| USB_TYPE_VENDOR, ACCESSORY_GET_PROTOCOL, 0, 0, [], 2, 0⟩ :
      control_request) = get_protocol_request dev := rfl

/-- When the query returned 2, `_getProtocol` returns the 16-bit version. -/
theorem getProtocol_of_two (h : usb_host) (w : world) (dev : usb_device)
    (hret : (h.control_transfer w.usb (get_protocol_request dev)).1 = 2) :
    (AndroidAccessory._getProtocol h w dev).1 =
      (((h.control_transfer w.usb (get_protocol_request dev)).2 % 65536 : Nat) : Int) := by
  simp [AndroidAccessory._getProtocol, usb_device_control_transfer, get_protocol_request_eq, hret]

/-- When the query did not return 2, `_getProtocol` returns -1. -/
theorem getProtocol_of_ne_two (h : usb_host) (w : world) (dev : usb_device)
    (hret : (h.control_transfer w.usb (get_protocol_request dev)).1 ≠ 2) :
    (AndroidAccessory._getProtocol h w dev).1 = -1 := by
  simp [AndroidAccessory._getProtocol, usb_device_control_transfer, get_protocol_request_eq, hret]

/-- The only call `_getProtocol` makes is the protocol query. -/
theorem getProtocol_usb (h : usb_host) (w : world) (dev : usb_device) :
    (AndroidAccessory._getProtocol h w dev).2.usb =
      w.usb ++ [usb_call.control_transfer (get_protocol_request dev)
        (h.control_transfer w.usb (get_protocol_request dev)).1] := by
  by_cases hret : (h.control_transfer w.usb (get_protocol_request dev)).1 = 2
  · simp [AndroidAccessory._getProtocol, usb_device_control_transfer, get_protocol_request_eq,
      hret, world.call]
  · simp [AndroidAccessory._getProtocol, usb_device_control_transfer, get_protocol_request_eq,
      hret, world.call, world.fprintf_stderr]

/-- C6. `_getProtocol` makes one control transfer, the protocol query, and
returns -1 exactly when that transfer did not return 2 (so for 0, 1, 3, 4 and
every negative value); when it returned 2 the result is the 16-bit version the
device wrote, which lies between 0 and 65535 and so is never -1. -/
theorem getProtocol_result (h : usb_host) (w : world) (dev : usb_device) :
    ((AndroidAccessory._getProtocol h w dev).1 = -1 ↔
      (h.control_transfer w.usb (get_protocol_request dev)).1 ≠ 2) ∧
    ((h.control_transfer w.usb (get_protocol_request dev)).1 = 2 →
      (AndroidAccessory._getProtocol h w dev).1 =
        (((h.control_transfer w.usb (get_protocol_request dev)).2 % 65536 : Nat) : Int) ∧
      0 ≤ (AndroidAccessory._getProtocol h w dev).1 ∧
      (AndroidAccessory._getProtocol h w dev).1 ≤ 65535) ∧
    (((h.control_transfer w.usb (get_protocol_request dev)).1 ∈ [0, 1, 3, 4] ∨
        (h.control_transfer w.usb (get_protocol_request dev)).1 < 0) →
      (AndroidAccessory._getProtocol h w dev).1 = -1) ∧
    (AndroidAccessory._getProtocol h w dev).2.usb =
      w.usb ++ [usb_call.control_transfer (get_protocol_request dev)
        (h.control_transfer w.usb (get_protocol_request dev)).1] := by
  refine ⟨⟨?_, getProtocol_of_ne_two h w dev⟩, ?_, ?_, getProtocol_usb h w dev⟩
  · intro hm hret
    have := getProtocol_of_two h w dev hret
    omega
  · intro hret
    have := getProtocol_of_two h w dev hret
    refine ⟨this, ?_, ?_⟩ <;> omega
  · rintro (hmem | hneg)
    · apply getProtocol_of_ne_two
      simp only [List.mem_cons, List.mem_nil_iff, or_false] at hmem
      omega
    · apply getProtocol_of_ne_two
      omega

/-- C6 at concrete inputs: `good_host` answers two bytes, so the second part
applies and gives version 1. -/
theorem getProtocol_result_witness :
    (AndroidAccessory._getProtocol good_host empty_world sample_device).1 =
        (((good_host.control_transfer empty_world.usb
            (get_protocol_request sample_device)).2 % 65536 : Nat) : Int) ∧
      0 ≤ (AndroidAccessory._getProtocol good_host empty_world sample_device).1 ∧
      (AndroidAccessory._getProtocol good_host empty_world sample_device).1 ≤ 65535 :=
  (getProtocol_result good_host empty_world sample_device).2.1 (by decide)

/-! ## C5: a device that does not answer version 1 -/

/-- When the query does not return two bytes holding version 1, `_getProtocol`
does not return 1. -/
theorem getProtocol_ne_one (h : usb_host) (w : world) (dev : usb_device)
    (hv : ¬ ((h.control_transfer w.usb (get_protocol_request dev)).1 = 2 ∧
      (h.control_transfer w.usb (get_protocol_request dev)).2 % 65536 = 1)) :
    (AndroidAccessory._getProtocol h w dev).1 ≠ 1 := by
  intro h1
  by_cases hret : (h.control_transfer w.usb (get_protocol_request dev)).1 = 2
  · have := getProtocol_of_two h w dev hret
    apply hv
    refine ⟨hret, ?_⟩
    omega
  · have := getProtocol_of_ne_two h w dev hret
    omega

/-- When `_getProtocol` does not return 1, `_switchDevice` stops after it. -/
theorem switchDevice_of_ne_one (a : AndroidAccessory) (h : usb_host) (w : world)
    (dev : usb_device) (hp : (AndroidAccessory._getProtocol h w dev).1 ≠ 1) :
    AndroidAccessory._switchDevice a h w dev =
      (false, (AndroidAccessory._getProtocol h w dev).2.Serial_print
        "could not read device protocol version\n") := by
  simp [AndroidAccessory._switchDevice, hp]

/-- C5. When the protocol query does not return two bytes holding version 1,
`_switchDevice` returns false and the protocol query is the only call it has
made: no string and no start transfer is sent. -/
theorem switchDevice_unsupported (a : AndroidAccessory) (h : usb_host) (w : world)
    (dev : usb_device)
    (hv : ¬ ((h.control_transfer w.usb (get_protocol_request dev)).1 = 2 ∧
      (h.control_transfer w.usb (get_protocol_request dev)).2 % 65536 = 1)) :
    (AndroidAccessory._switchDevice a h w dev).1 = false ∧
    (AndroidAccessory._switchDevice a h w dev).2.usb =
      w.usb ++ [usb_call.control_transfer (get_protocol_request dev)
        (h.control_transfer w.usb (get_protocol_request dev)).1] := by
  rw [switchDevice_of_ne_one a h w dev (getProtocol_ne_one h w dev hv)]
  refine ⟨rfl, ?_⟩
  have hu := getProtocol_usb h w dev
  simpa [world.Serial_print] using hu

/-- C5 at a concrete input: a device that answers version 2. -/
theorem switchDevice_unsupported_witness :
    (AndroidAccessory._switchDevice sample_accessory version2_host empty_world sample_device).1
      = false ∧
    (AndroidAccessory._switchDevice sample_accessory version2_host empty_world
        sample_device).2.usb =
      empty_world.usb ++ [usb_call.control_transfer (get_protocol_request sample_device)
        (version2_host.control_transfer empty_world.usb
          (get_protocol_request sample_device)).1] :=
  switchDevice_unsupported sample_accessory version2_host empty_world sample_device (by decide)

/-! ## C3 and C4: the handshake -/

/-- With a device held and version 1 answered, `_switchDevice` makes the
protocol query, six string transfers to the held device and the start transfer
on `dev`, and returns whether the start transfer returned 0. -/
theorem switchDevice_held (a : AndroidAccessory) (h : usb_host) (w : world)
    (dev d : usb_device) (hd : a._dev = some d)
    (hv : (h.control_transfer w.usb (get_protocol_request dev)).1 = 2 ∧
      (h.control_transfer w.usb (get_protocol_request dev)).2 % 65536 = 1) :
    ∃ r0 r1 r2 r3 r4 r5 rs : Int,
      AndroidAccessory._switchDevice a h w dev =
        (decide (rs = 0),
          ⟨w.usb ++ [usb_call.control_transfer (get_protocol_request dev) 2,
            usb_call.control_transfer (send_string_request d 0 a._manufacturer) r0,
            usb_call.control_transfer (send_string_request d 1 a._model) r1,
            usb_call.control_transfer (send_string_request d 2 a._description) r2,
            usb_call.control_transfer (send_string_request d 3 a._version) r3,
            usb_call.control_transfer (send_string_request d 4 a._uri) r4,
            usb_call.control_transfer (send_string_request d 5 a._serial) r5,
            usb_call.control_transfer (start_request dev) rs],
           w.stderr, w.serial ++ ["device supports protcol 1\n"]⟩) := by
  obtain ⟨h2, h1⟩ := hv
  have hp : AndroidAccessory._getProtocol h w dev =
      (1, ⟨w.usb ++ [usb_call.control_transfer (get_protocol_request dev) 2], w.stderr,
        w.serial⟩) := by
    simp [AndroidAccessory._getProtocol, usb_device_control_transfer, get_protocol_request_eq,
      h2, h1, world.call]
  have hs : ∀ (u : List usb_call) (e s : List String) (i : Nat) (str : cstring),
      ∃ r : Int, AndroidAccessory._sendString a h ⟨u, e, s⟩ i str =
        ⟨u ++ [usb_call.control_transfer (send_string_request d i str) r], e, s⟩ := by
    intro u e s i str
    refine ⟨(h.control_transfer u (send_string_request d i str)).1, ?_⟩
    simp [AndroidAccessory._sendString, hd, usb_device_control_transfer, world.call,
      send_string_request, strlen, USB_DIR_OUT, USB_TYPE_VENDOR, ACCESSORY_SEND_STRING]
  have hst : (⟨dev.name, USB_DIR_OUT ||| USB_TYPE_VENDOR, ACCESSORY_START, 0, 0, [], 0, 0⟩ :
      control_request) = start_request dev := rfl
  simp only [AndroidAccessory._switchDevice, hp, hst, world.Serial_print, if_true,
    ACCESSORY_STRING_MANUFACTURER, ACCESSORY_STRING_MODEL, ACCESSORY_STRING_DESCRIPTION,
    ACCESSORY_STRING_VERSION, ACCESSORY_STRING_URI, ACCESSORY_STRING_SERIAL]
  obtain ⟨r0, e0⟩ := hs (w.usb ++ [usb_call.control_transfer (get_protocol_request dev) 2])
    w.stderr (w.serial ++ ["device supports protcol 1\n"]) 0 a._manufacturer
  rw [e0]
  obtain ⟨r1, e1⟩ := hs (w.usb ++ [usb_call.control_transfer (get_protocol_request dev) 2] ++
    [usb_call.control_transfer (send_string_request d 0 a._manufacturer) r0])
    w.stderr (w.serial ++ ["device supports protcol 1\n"]) 1 a._model
  rw [e1]
  obtain ⟨r2, e2⟩ := hs (w.usb ++ [usb_call.control_transfer (get_protocol_request dev) 2] ++
    [usb_call.control_transfer (send_string_request d 0 a._manufacturer) r0] ++
    [usb_call.control_transfer (send_string_request d 1 a._model) r1])
    w.stderr (w.serial ++ ["device supports protcol 1\n"]) 2 a._description
  rw [e2]
  obtain ⟨r3, e3⟩ := hs (w.usb ++ [usb_call.control_transfer (get_protocol_request dev) 2] ++
    [usb_call.control_transfer (send_string_request d 0 a._manufacturer) r0] ++
    [usb_call.control_transfer (send_string_request d 1 a._model) r1] ++
    [usb_call.control_transfer (send_string_request d 2 a._description) r2])
    w.stderr (w.serial ++ ["device supports protcol 1\n"]) 3 a._version
  rw [e3]
  obtain ⟨r4, e4⟩ := hs (w.usb ++ [usb_call.control_transfer (get_protocol_request dev) 2] ++
    [usb_call.control_transfer (send_string_request d 0 a._manufacturer) r0] ++
    [usb_call.control_transfer (send_string_request d 1 a._model) r1] ++
    [usb_call.control_transfer (send_string_request d 2 a._description) r2] ++
    [usb_call.control_transfer (send_string_request d 3 a._version) r3])
    w.stderr (w.serial ++ ["device supports protcol 1\n"]) 4 a._uri
  rw [e4]
  obtain ⟨r5, e5⟩ := hs (w.usb ++ [usb_call.control_transfer (get_protocol_request dev) 2] ++
    [usb_call.control_transfer (send_string_request d 0 a._manufacturer) r0] ++
    [usb_call.control_transfer (send_string_request d 1 a._model) r1] ++
    [usb_call.control_transfer (send_string_request d 2 a._description) r2] ++
    [usb_call.control_transfer (send_string_request d 3 a._version) r3] ++
    [usb_call.control_transfer (send_string_request d 4 a._uri) r4])
    w.stderr (w.serial ++ ["device supports protcol 1\n"]) 5 a._serial
  rw [e5]
  have hfin : ∀ (W : world) (rq : control_request),
      ((if (usb_device_control_transfer h W rq).1.1 = 0 then true else false),
        (usb_device_control_transfer h W rq).2) =
      (decide ((h.control_transfer W.usb rq).1 = 0),
        (⟨W.usb ++ [usb_call.control_transfer rq (h.control_transfer W.usb rq).1], W.stderr,
          W.serial⟩ : world)) := by
    intro W rq
    by_cases hz : (h.control_transfer W.usb rq).1 = 0 <;>
      simp [usb_device_control_transfer, world.call, hz]
  rw [hfin]
  simp only [List.append_assoc, List.singleton_append, List.cons_append, List.nil_append]
  exact ⟨r0, r1, r2, r3, r4, r5, _, rfl⟩

/-- With no device held and version 1 answered, `_switchDevice` sends no
string: it makes the protocol query and the start transfer only. -/
theorem switchDevice_not_held (a : AndroidAccessory) (h : usb_host) (w : world)
    (dev : usb_device) (hd : a._dev = none)
    (hv : (h.control_transfer w.usb (get_protocol_request dev)).1 = 2 ∧
      (h.control_transfer w.usb (get_protocol_request dev)).2 % 65536 = 1) :
    ∃ rs : Int,
      (AndroidAccessory._switchDevice a h w dev).2.usb =
        w.usb ++ [usb_call.control_transfer (get_protocol_request dev) 2,
          usb_call.control_transfer (start_request dev) rs] := by
  obtain ⟨h2, h1⟩ := hv
  have hp : AndroidAccessory._getProtocol h w dev =
      (1, ⟨w.usb ++ [usb_call.control_transfer (get_protocol_request dev) 2], w.stderr,
        w.serial⟩) := by
    simp [AndroidAccessory._getProtocol, usb_device_control_transfer, get_protocol_request_eq,
      h2, h1, world.call]
  have hst : (⟨dev.name, USB_DIR_OUT ||| USB_TYPE_VENDOR, ACCESSORY_START, 0, 0, [], 0, 0⟩ :
      control_request) = start_request dev := rfl
  simp only [AndroidAccessory._switchDevice, hp, hst, AndroidAccessory._sendString, hd,
    usb_device_control_transfer, world.call, world.Serial_print, world.fprintf_stderr, if_true,
    List.append_assoc, List.singleton_append]
  exact ⟨_, rfl⟩

/-- C3. The code at two failing inputs, both with a device `sample_device`
that answers version 1.  On an accessory object that holds no device,
`_switchDevice` makes the protocol query and the start transfer and no string
transfer at all, and returns true; each `_sendString` only writes its
complaint.  On an accessory object that holds another device, "/dev/9", the
six string transfers go to "/dev/9" while the query and the start transfer go
to `sample_device`, which so receives no string either. -/
theorem switchDevice_strings_miss_device :
    fresh_accessory._dev = none ∧
    good_host.control_transfer [] (get_protocol_request sample_device) = (2, 1) ∧
    AndroidAccessory._switchDevice fresh_accessory good_host empty_world sample_device =
      (true,
        ⟨[usb_call.control_transfer (get_protocol_request sample_device) 2,
          usb_call.control_transfer (start_request sample_device) 0],
         ["%s: Fail: device not opened!", "%s: Fail: device not opened!",
          "%s: Fail: device not opened!", "%s: Fail: device not opened!",
          "%s: Fail: device not opened!", "%s: Fail: device not opened!"],
         ["device supports protcol 1\n"]⟩) ∧
    other_holding_accessory._dev = some other_device ∧
    AndroidAccessory._switchDevice other_holding_accessory good_host empty_world sample_device =
      (true,
        ⟨[usb_call.control_transfer ⟨[47, 100, 101, 118, 47, 49], 0xC0, 51, 0, 0, [], 2, 0⟩ 2,
          usb_call.control_transfer ⟨[47, 100, 101, 118, 47, 57], 0x40, 52, 0, 0, [65, 0], 2, 0⟩ 2,
          usb_call.control_transfer ⟨[47, 100, 101, 118, 47, 57], 0x40, 52, 0, 1, [66, 0], 2, 0⟩ 2,
          usb_call.control_transfer ⟨[47, 100, 101, 118, 47, 57], 0x40, 52, 0, 2, [67, 0], 2, 0⟩ 2,
          usb_call.control_transfer ⟨[47, 100, 101, 118, 47, 57], 0x40, 52, 0, 3, [68, 0], 2, 0⟩ 2,
          usb_call.control_transfer ⟨[47, 100, 101, 118, 47, 57], 0x40, 52, 0, 4, [69, 0], 2, 0⟩ 2,
          usb_call.control_transfer ⟨[47, 100, 101, 118, 47, 57], 0x40, 52, 0, 5, [70, 0], 2, 0⟩ 2,
          usb_call.control_transfer ⟨[47, 100, 101, 118, 47, 49], 0x40, 53, 0, 0, [], 0, 0⟩ 0],
         [], ["device supports protcol 1\n"]⟩) := by
  decide

/-- C4 fails as stated. With the transfer of string 2 failing with -1,
`_switchDevice` still sends strings 3, 4 and 5 and the start transfer, and
returns true. -/
theorem switchDevice_string_failure_still_starts :
    AndroidAccessory._switchDevice sample_accessory string2_failing_host empty_world
        sample_device =
      (true,
        ⟨[usb_call.control_transfer (get_protocol_request sample_device) 2,
          usb_call.control_transfer (send_string_request sample_device 0 [65]) 2,
          usb_call.control_transfer (send_string_request sample_device 1 [66]) 2,
          usb_call.control_transfer (send_string_request sample_device 2 [67]) (-1),
          usb_call.control_transfer (send_string_request sample_device 3 [68]) 2,
          usb_call.control_transfer (send_string_request sample_device 4 [69]) 2,
          usb_call.control_transfer (send_string_request sample_device 5 [70]) 2,
          usb_call.control_transfer (start_request sample_device) 0],
         [], ["device supports protcol 1\n"]⟩) := by
  decide

/-- C4, amended. If a string transfer made by `_switchDevice` fails (returns a
negative value), `_switchDevice` does not stop: all six string transfers and
then the start transfer are made, and the result is true exactly when the start
transfer returned 0, whatever the string transfers returned. -/
theorem switchDevice_ignores_string_failure (a : AndroidAccessory) (h : usb_host) (w : world)
    (dev : usb_device) (rq : control_request) (ret : Int)
    (hmem : usb_call.control_transfer rq ret ∈
      (AndroidAccessory._switchDevice a h w dev).2.usb.drop w.usb.length)
    (hreq : rq.request = ACCESSORY_SEND_STRING) (_hfail : ret < 0) :
    rq.index ≤ 5 ∧
    ∃ (d : usb_device) (r0 r1 r2 r3 r4 r5 rs : Int), a._dev = some d ∧
      (AndroidAccessory._switchDevice a h w dev).2.usb =
        w.usb ++ [usb_call.control_transfer (get_protocol_request dev) 2,
          usb_call.control_transfer (send_string_request d 0 a._manufacturer) r0,
          usb_call.control_transfer (send_string_request d 1 a._model) r1,
          usb_call.control_transfer (send_string_request d 2 a._description) r2,
          usb_call.control_transfer (send_string_request d 3 a._version) r3,
          usb_call.control_transfer (send_string_request d 4 a._uri) r4,
          usb_call.control_transfer (send_string_request d 5 a._serial) r5,
          usb_call.control_transfer (start_request dev) rs] ∧
      ((AndroidAccessory._switchDevice a h w dev).1 = true ↔ rs = 0) := by
  by_cases hv : (h.control_transfer w.usb (get_protocol_request dev)).1 = 2 ∧
      (h.control_transfer w.usb (get_protocol_request dev)).2 % 65536 = 1
  · cases hdev : a._dev with
    | none =>
      obtain ⟨rs, e⟩ := switchDevice_not_held a h w dev hdev hv
      rw [e, List.drop_left] at hmem
      simp only [List.mem_cons, usb_call.control_transfer.injEq, List.mem_nil_iff,
        or_false] at hmem
      rcases hmem with ⟨hrq, -⟩ | ⟨hrq, -⟩ <;>
        · rw [hrq] at hreq
          simp [get_protocol_request, start_request, ACCESSORY_SEND_STRING] at hreq
    | some d =>
      obtain ⟨r0, r1, r2, r3, r4, r5, rs, e⟩ := switchDevice_held a h w dev d hdev hv
      rw [e] at hmem ⊢
      rw [List.drop_left] at hmem
      refine ⟨?_, d, r0, r1, r2, r3, r4, r5, rs, rfl, rfl, by simp⟩
      simp only [List.mem_cons, usb_call.control_transfer.injEq, List.mem_nil_iff,
        or_false] at hmem
      rcases hmem with ⟨hrq, -⟩ | ⟨hrq, -⟩ | ⟨hrq, -⟩ | ⟨hrq, -⟩ | ⟨hrq, -⟩ | ⟨hrq, -⟩ |
        ⟨hrq, -⟩ | ⟨hrq, -⟩ <;> rw [hrq] <;> simp [get_protocol_request, send_string_request,
          start_request]
  · exfalso
    rw [switchDevice_of_ne_one a h w dev (getProtocol_ne_one h w dev hv)] at hmem
    have hu := getProtocol_usb h w dev
    simp only [world.Serial_print] at hmem
    rw [hu, List.drop_left] at hmem
    simp only [List.mem_cons, usb_call.control_transfer.injEq, List.mem_nil_iff,
      or_false] at hmem
    rw [hmem.1] at hreq
    simp [get_protocol_request, ACCESSORY_SEND_STRING] at hreq

/-- The amended C4 at a concrete input: on `string2_failing_host` the transfer
of string 2 returns -1. -/
theorem switchDevice_ignores_string_failure_witness :
    (2 : Nat) ≤ 5 ∧
    ∃ (d : usb_device) (r0 r1 r2 r3 r4 r5 rs : Int), sample_accessory._dev = some d ∧
      (AndroidAccessory._switchDevice sample_accessory string2_failing_host empty_world
          sample_device).2.usb =
        empty_world.usb ++ [usb_call.control_transfer (get_protocol_request sample_device) 2,
          usb_call.control_transfer (send_string_request d 0 sample_accessory._manufacturer) r0,
          usb_call.control_transfer (send_string_request d 1 sample_accessory._model) r1,
          usb_call.control_transfer (send_string_request d 2 sample_accessory._description) r2,
          usb_call.control_transfer (send_string_request d 3 sample_accessory._version) r3,
          usb_call.control_transfer (send_string_request d 4 sample_accessory._uri) r4,
          usb_call.control_transfer (send_string_request d 5 sample_accessory._serial) r5,
          usb_call.control_transfer (start_request sample_device) rs] ∧
      ((AndroidAccessory._switchDevice sample_accessory string2_failing_host empty_world
          sample_device).1 = true ↔ rs = 0) :=
  switchDevice_ignores_string_failure sample_accessory string2_failing_host empty_world
    sample_device (send_string_request sample_device 2 [67]) (-1) (by decide) (by decide)
    (by decide)

/-! ## The loop of `_findEndpoints` -/

theorem loop_body_interface (d : usb_descriptor) (pos : Nat) (v : AndroidAccessory.found)
    (hd : d.bDescriptorType = USB_DT_INTERFACE) :
    AndroidAccessory.loop_body d pos v = ⟨some ⟨pos, d⟩, v.ep1, v.ep2⟩ := by
  unfold AndroidAccessory.loop_body
  rw [if_pos hd]

theorem endpoint_not_interface (d : usb_descriptor) (he : d.bDescriptorType = USB_DT_ENDPOINT) :
    ¬ d.bDescriptorType = USB_DT_INTERFACE := by
  rw [he]; decide

theorem loop_body_endpoint_first (d : usb_descriptor) (pos : Nat) (v : AndroidAccessory.found)
    (he : d.bDescriptorType = USB_DT_ENDPOINT) (h1 : v.ep1 = none) :
    AndroidAccessory.loop_body d pos v = ⟨v.intf, some ⟨pos, d⟩, v.ep2⟩ := by
  unfold AndroidAccessory.loop_body
  rw [if_neg (endpoint_not_interface d he), if_pos he, h1]
  rfl

theorem loop_body_endpoint_second (d : usb_descriptor) (pos : Nat) (v : AndroidAccessory.found)
    (he : d.bDescriptorType = USB_DT_ENDPOINT) (h1 : v.ep1.isSome = true) :
    AndroidAccessory.loop_body d pos v = ⟨v.intf, v.ep1, some ⟨pos, d⟩⟩ := by
  unfold AndroidAccessory.loop_body
  rw [if_neg (endpoint_not_interface d he), if_pos he, if_pos h1]

theorem loop_body_other (d : usb_descriptor) (pos : Nat) (v : AndroidAccessory.found)
    (hd : ¬ d.bDescriptorType = USB_DT_INTERFACE) (he : ¬ d.bDescriptorType = USB_DT_ENDPOINT) :
    AndroidAccessory.loop_body d pos v = v := by
  unfold AndroidAccessory.loop_body
  rw [if_neg hd, if_neg he]

theorem loop_of_all_set (l : List usb_descriptor) (pos : Nat) (v : AndroidAccessory.found)
    (hv : all_set v) : AndroidAccessory.loop l pos v = v := by
  obtain ⟨h1, h2, h3⟩ := hv
  cases l with
  | nil => rfl
  | cons d rest =>
    have hc : (v.intf.isNone || v.ep1.isNone || v.ep2.isNone) = false := by
      cases hi : v.intf <;> cases he1 : v.ep1 <;> cases he2 : v.ep2 <;> simp_all
    unfold AndroidAccessory.loop
    rw [hc]
    rfl

theorem loop_of_not_all_set (d : usb_descriptor) (rest : List usb_descriptor) (pos : Nat)
    (v : AndroidAccessory.found) (hv : ¬ all_set v) :
    AndroidAccessory.loop (d :: rest) pos v =
      AndroidAccessory.loop rest (pos + 1) (AndroidAccessory.loop_body d pos v) := by
  have hc : (v.intf.isNone || v.ep1.isNone || v.ep2.isNone) = true := by
    unfold all_set at hv
    cases hi : v.intf <;> cases h1 : v.ep1 <;> cases h2 : v.ep2 <;> simp_all
  rw [AndroidAccessory.loop, if_pos hc]

/-- The loop over `s ++ t` is the loop over `s` followed by the loop over `t`. -/
theorem loop_append (s t : List usb_descriptor) (pos : Nat) (v : AndroidAccessory.found) :
    AndroidAccessory.loop (s ++ t) pos v =
      AndroidAccessory.loop t (pos + s.length) (AndroidAccessory.loop s pos v) := by
  induction s generalizing pos v with
  | nil => simp [AndroidAccessory.loop]
  | cons d rest ih =>
    by_cases hv : all_set v
    · rw [loop_of_all_set _ _ _ hv, loop_of_all_set _ _ _ hv, loop_of_all_set _ _ _ hv]
    · rw [List.cons_append, loop_of_not_all_set _ _ _ _ hv, loop_of_not_all_set _ _ _ _ hv, ih]
      simp [Nat.add_assoc, Nat.add_comm 1]

theorem append_cons_ne_nil (p1 : List usb_descriptor) (q : List usb_descriptor)
    (hpq : [] = p1 ++ q) (hq : q ≠ []) : False := by
  cases q with
  | nil => exact hq rfl
  | cons e q1 =>
    have := congrArg List.length hpq
    simp only [List.length_nil, List.length_append, List.length_cons] at this
    omega

/-- The loop stops after a prefix `p` of the descriptors: it has applied the
body to every descriptor of `p`, no shorter prefix had set the three pointers,
and if descriptors are left unread the three pointers are set. -/
theorem loop_eq_run_body (s : List usb_descriptor) (pos : Nat) (v : AndroidAccessory.found) :
    ∃ p r, s = p ++ r ∧ AndroidAccessory.loop s pos v = run_body p pos v ∧
      (∀ p1 q, p = p1 ++ q → q ≠ [] → ¬ all_set (run_body p1 pos v)) ∧
      (r ≠ [] → all_set (run_body p pos v)) := by
  induction s generalizing pos v with
  | nil =>
    exact ⟨[], [], rfl, rfl, fun p1 q hpq hq => (append_cons_ne_nil p1 q hpq hq).elim,
      fun hr => absurd rfl hr⟩
  | cons d rest ih =>
    by_cases hv : all_set v
    · refine ⟨[], d :: rest, rfl, ?_,
        fun p1 q hpq hq => (append_cons_ne_nil p1 q hpq hq).elim, fun _ => hv⟩
      rw [loop_of_all_set _ _ _ hv]; rfl
    · obtain ⟨p, r, hs, hl, hmin, hr⟩ := ih (pos + 1) (AndroidAccessory.loop_body d pos v)
      refine ⟨d :: p, r, by rw [hs]; rfl, ?_, ?_, hr⟩
      · rw [loop_of_not_all_set _ _ _ _ hv, hl]; rfl
      · intro p1 q hpq hq
        cases p1 with
        | nil => exact hv
        | cons e p2 =>
          rw [List.cons_append, List.cons.injEq] at hpq
          obtain ⟨he, hp⟩ := hpq
          subst he
          exact hmin p2 q hp hq

theorem filter_interface_cons (d : usb_descriptor) (rest : List usb_descriptor) :
    (d :: rest).filter is_interface =
      if d.bDescriptorType = USB_DT_INTERFACE then d :: rest.filter is_interface
      else rest.filter is_interface := by
  rw [List.filter_cons]
  simp [is_interface]

theorem filter_endpoint_cons (d : usb_descriptor) (rest : List usb_descriptor) :
    (d :: rest).filter is_endpoint =
      if d.bDescriptorType = USB_DT_ENDPOINT then d :: rest.filter is_endpoint
      else rest.filter is_endpoint := by
  rw [List.filter_cons]
  simp [is_endpoint]

/-- The interface pointer after the body has been applied to `p`: the last
interface descriptor of `p`, or the old pointer when `p` has none. -/
theorem run_body_intf (p : List usb_descriptor) (pos : Nat) (v : AndroidAccessory.found) :
    (run_body p pos v).intf.map (fun x => x.desc) =
      ((p.filter is_interface).getLast?).or (v.intf.map (fun x => x.desc)) := by
  induction p generalizing pos v with
  | nil => simp [run_body]
  | cons d rest ih =>
    rw [run_body, ih, filter_interface_cons]
    by_cases hd : d.bDescriptorType = USB_DT_INTERFACE
    · rw [if_pos hd, List.getLast?_cons, loop_body_interface d pos v hd]
      cases hl : (List.filter is_interface rest).getLast? <;> simp
    · rw [if_neg hd]
      by_cases he : d.bDescriptorType = USB_DT_ENDPOINT
      · cases h1 : v.ep1 with
        | none => rw [loop_body_endpoint_first d pos v he h1]
        | some x => rw [loop_body_endpoint_second d pos v he (by simp [h1])]
      · rw [loop_body_other d pos v hd he]

/-- The first endpoint pointer after the body has been applied to `p`: the old
pointer if it was set, otherwise the first endpoint descriptor of `p`. -/
theorem run_body_ep1 (p : List usb_descriptor) (pos : Nat) (v : AndroidAccessory.found) :
    (run_body p pos v).ep1.map (fun x => x.desc) =
      (v.ep1.map (fun x => x.desc)).or ((p.filter is_endpoint).head?) := by
  induction p generalizing pos v with
  | nil => simp [run_body]
  | cons d rest ih =>
    rw [run_body, ih, filter_endpoint_cons]
    by_cases he : d.bDescriptorType = USB_DT_ENDPOINT
    · rw [if_pos he]
      cases h1 : v.ep1 with
      | none => rw [loop_body_endpoint_first d pos v he h1]; simp
      | some x => rw [loop_body_endpoint_second d pos v he (by simp [h1])]; simp [h1]
    · rw [if_neg he]
      by_cases hd : d.bDescriptorType = USB_DT_INTERFACE
      · rw [loop_body_interface d pos v hd]
      · rw [loop_body_other d pos v hd he]

/-- The second endpoint pointer after the body has been applied to `p`, when
the first was set before: the last endpoint descriptor of `p`, or the old
pointer when `p` has none. -/
theorem run_body_ep2_of_ep1 (p : List usb_descriptor) (pos : Nat) (v : AndroidAccessory.found)
    (h1 : v.ep1.isSome = true) :
    (run_body p pos v).ep2.map (fun x => x.desc) =
      ((p.filter is_endpoint).getLast?).or (v.ep2.map (fun x => x.desc)) := by
  induction p generalizing pos v with
  | nil => simp [run_body]
  | cons d rest ih =>
    rw [run_body, filter_endpoint_cons]
    by_cases he : d.bDescriptorType = USB_DT_ENDPOINT
    · rw [if_pos he, loop_body_endpoint_second d pos v he h1, ih, List.getLast?_cons]
      · cases hl : (List.filter is_endpoint rest).getLast? <;> simp
      · exact h1
    · rw [if_neg he]
      by_cases hd : d.bDescriptorType = USB_DT_INTERFACE
      · rw [loop_body_interface d pos v hd, ih]
        exact h1
      · rw [loop_body_other d pos v hd he, ih _ _ h1]

/-- The second endpoint pointer after the body has been applied to `p`, when
neither endpoint pointer was set before: the last endpoint descriptor of `p`
other than its first one. -/
theorem run_body_ep2 (p : List usb_descriptor) (pos : Nat) (v : AndroidAccessory.found)
    (h1 : v.ep1 = none) (h2 : v.ep2 = none) :
    (run_body p pos v).ep2.map (fun x => x.desc) = ((p.filter is_endpoint).tail).getLast? := by
  induction p generalizing pos v with
  | nil => simp [run_body, h2]
  | cons d rest ih =>
    rw [run_body, filter_endpoint_cons]
    by_cases he : d.bDescriptorType = USB_DT_ENDPOINT
    · rw [if_pos he, loop_body_endpoint_first d pos v he h1,
        run_body_ep2_of_ep1 _ _ _ (by simp), List.tail_cons]
      simp [h2]
    · rw [if_neg he]
      by_cases hd : d.bDescriptorType = USB_DT_INTERFACE
      · rw [loop_body_interface d pos v hd, ih]
        · exact h1
        · exact h2
      · rw [loop_body_other d pos v hd he, ih _ _ h1 h2]

theorem run_body_intf_start (p : List usb_descriptor) :
    (run_body p 0 no_pointers).intf.map (fun x => x.desc) = (p.filter is_interface).getLast? := by
  rw [run_body_intf]
  simp [no_pointers]

theorem run_body_ep1_start (p : List usb_descriptor) :
    (run_body p 0 no_pointers).ep1.map (fun x => x.desc) = (p.filter is_endpoint).head? := by
  rw [run_body_ep1]
  simp [no_pointers]

theorem run_body_ep2_start (p : List usb_descriptor) :
    (run_body p 0 no_pointers).ep2.map (fun x => x.desc) =
      ((p.filter is_endpoint).tail).getLast? :=
  run_body_ep2 p 0 no_pointers rfl rfl

theorem isSome_of_map_desc (o : Option AndroidAccessory.desc_ptr) :
    o.isSome = (o.map (fun x => x.desc)).isSome := by
  cases o <;> rfl

theorem getLast?_isSome_iff (l : List usb_descriptor) : l.getLast?.isSome = true ↔ l ≠ [] := by
  cases l with
  | nil => simp
  | cons a l1 => simp [List.getLast?_cons]

theorem tail_getLast?_of_two_le (l : List usb_descriptor) (hl : 2 ≤ l.length) :
    l.tail.getLast? = l.getLast? := by
  match l, hl with
  | a :: b :: l1, _ => simp [List.getLast?_cons]

theorem tail_ne_nil_iff (l : List usb_descriptor) : l.tail ≠ [] ↔ 2 ≤ l.length := by
  match l with
  | [] => simp
  | [a] => simp
  | a :: b :: l1 => simp

/-- From the start, the three pointers are set after `p` exactly when `p`
holds an interface descriptor and two endpoint descriptors. -/
theorem all_set_run_body_iff (p : List usb_descriptor) :
    all_set (run_body p 0 no_pointers) ↔ has_all p := by
  unfold all_set has_all
  rw [isSome_of_map_desc, isSome_of_map_desc (run_body p 0 no_pointers).ep1,
    isSome_of_map_desc (run_body p 0 no_pointers).ep2, run_body_intf_start, run_body_ep1_start,
    run_body_ep2_start, getLast?_isSome_iff, getLast?_isSome_iff, tail_ne_nil_iff]
  constructor
  · rintro ⟨h1, -, h3⟩
    exact ⟨h1, h3⟩
  · rintro ⟨h1, h3⟩
    refine ⟨h1, ?_, h3⟩
    match hf : List.filter is_endpoint p, h3 with
    | a :: l1, _ => rfl

/-- The loop run from the start stops after the shortest prefix `p` of the
descriptors that holds an interface descriptor and two endpoint descriptors,
or reads them all when there is no such prefix. -/
theorem loop_selection (s : List usb_descriptor) :
    ∃ p r, s = p ++ r ∧ AndroidAccessory.loop s 0 no_pointers = run_body p 0 no_pointers ∧
      (∀ p1 q, p = p1 ++ q → q ≠ [] → ¬ has_all p1) ∧ (r ≠ [] → has_all p) := by
  obtain ⟨p, r, hs, hl, hmin, hr⟩ := loop_eq_run_body s 0 no_pointers
  refine ⟨p, r, hs, hl, ?_, ?_⟩
  · intro p1 q hpq hq hall
    exact hmin p1 q hpq hq ((all_set_run_body_iff p1).2 hall)
  · intro hne
    exact (all_set_run_body_iff p).1 (hr hne)

/-- What `_findEndpoints` does once the loop has set the three pointers. -/
theorem findEndpoints_of_loop (h : usb_host) (w : world) (dev : usb_device)
    (epRead epWrite : Int) (i p1 p2 : AndroidAccessory.desc_ptr)
    (hl : AndroidAccessory.loop dev.descriptors 0 no_pointers = ⟨some i, some p1, some p2⟩) :
    AndroidAccessory._findEndpoints h w dev epRead epWrite =
      if h.claim_interface w.usb dev.name i.desc.bInterfaceNumber ≠ 0 then
        (false, epRead, epWrite,
          ⟨w.usb ++ [usb_call.claim_interface dev.name i.desc.bInterfaceNumber
              (h.claim_interface w.usb dev.name i.desc.bInterfaceNumber)],
            w.stderr ++ ["usb_device_claim_interface failed errno: %d\n"], w.serial⟩)
      else if p1.desc.bEndpointAddress &&& 0x80 = 0x80 then
        (true, (p1.desc.bEndpointAddress : Int), (p2.desc.bEndpointAddress : Int),
          ⟨w.usb ++ [usb_call.claim_interface dev.name i.desc.bInterfaceNumber 0],
            w.stderr, w.serial⟩)
      else
        (true, (p2.desc.bEndpointAddress : Int), (p1.desc.bEndpointAddress : Int),
          ⟨w.usb ++ [usb_call.claim_interface dev.name i.desc.bInterfaceNumber 0],
            w.stderr, w.serial⟩) := by
  have hl2 : AndroidAccessory.loop dev.descriptors 0 ⟨none, none, none⟩ =
      ⟨some i, some p1, some p2⟩ := hl
  unfold AndroidAccessory._findEndpoints
  simp only [hl2, usb_device_claim_interface, world.call, world.fprintf_stderr,
    USB_ENDPOINT_DIR_MASK, USB_DIR_IN]
  by_cases hc : h.claim_interface w.usb dev.name i.desc.bInterfaceNumber = 0
  · simp [hc]
  · simp [hc]

/-- When the loop leaves the interface pointer NULL, `_findEndpoints` fails
with its first message and claims nothing. -/
theorem findEndpoints_of_no_intf (h : usb_host) (w : world) (dev : usb_device)
    (epRead epWrite : Int)
    (hl : (AndroidAccessory.loop dev.descriptors 0 no_pointers).intf = none) :
    AndroidAccessory._findEndpoints h w dev epRead epWrite =
      (false, epRead, epWrite, ⟨w.usb, w.stderr ++ ["interface not found\n"], w.serial⟩) := by
  have hl2 : (AndroidAccessory.loop dev.descriptors 0 ⟨none, none, none⟩).intf = none := hl
  unfold AndroidAccessory._findEndpoints
  simp only [hl2, world.fprintf_stderr]

/-- When the loop sets the interface pointer and leaves the second endpoint
pointer NULL, `_findEndpoints` fails with its second message and claims
nothing. -/
theorem findEndpoints_of_no_ep2 (h : usb_host) (w : world) (dev : usb_device)
    (epRead epWrite : Int) (i : AndroidAccessory.desc_ptr)
    (hi : (AndroidAccessory.loop dev.descriptors 0 no_pointers).intf = some i)
    (hl : (AndroidAccessory.loop dev.descriptors 0 no_pointers).ep2 = none) :
    AndroidAccessory._findEndpoints h w dev epRead epWrite =
      (false, epRead, epWrite, ⟨w.usb, w.stderr ++ ["endpoints not found\n"], w.serial⟩) := by
  have hi2 : (AndroidAccessory.loop dev.descriptors 0 ⟨none, none, none⟩).intf = some i := hi
  have hl2 : (AndroidAccessory.loop dev.descriptors 0 ⟨none, none, none⟩).ep2 = none := hl
  unfold AndroidAccessory._findEndpoints
  simp only [hi2, hl2, world.fprintf_stderr]
  cases (AndroidAccessory.loop dev.descriptors 0 ⟨none, none, none⟩).ep1 <;> rfl

/-! ## C8: the failures of `_findEndpoints` -/

/-- C8 fails as stated. On `endpoints_first_device` no endpoint descriptor
follows the only interface descriptor, yet `_findEndpoints` does not fail: it
claims interface 0 and returns the two endpoints that precede it. -/
theorem findEndpoints_counts_endpoints_before_interface :
    (endpoints_first_device.descriptors.filter is_interface).length = 1 ∧
    endpoints_after_interface endpoints_first_device.descriptors = 0 ∧
    AndroidAccessory._findEndpoints good_host empty_world endpoints_first_device (-1) (-1) =
      (true, 129, 2,
        ⟨[usb_call.claim_interface [47, 100, 101, 118, 47, 50] 0 0], [], []⟩) := by
  decide

/-- C8, amended. `_findEndpoints` fails with "interface not found" when the
descriptors hold no interface descriptor, and with "endpoints not found" when
they hold an interface descriptor and fewer than two endpoint descriptors in
all, wherever those stand; in both cases the output parameters keep their
values and no interface is claimed. -/
theorem findEndpoints_failures (h : usb_host) (w : world) (dev : usb_device)
    (epRead epWrite : Int) :
    ((∀ d ∈ dev.descriptors, d.bDescriptorType ≠ USB_DT_INTERFACE) →
      AndroidAccessory._findEndpoints h w dev epRead epWrite =
        (false, epRead, epWrite, ⟨w.usb, w.stderr ++ ["interface not found\n"], w.serial⟩)) ∧
    ((∃ d ∈ dev.descriptors, d.bDescriptorType = USB_DT_INTERFACE) →
      (dev.descriptors.filter is_endpoint).length < 2 →
      AndroidAccessory._findEndpoints h w dev epRead epWrite =
        (false, epRead, epWrite, ⟨w.usb, w.stderr ++ ["endpoints not found\n"], w.serial⟩)) := by
  obtain ⟨p, r, hs, hl, -, hr⟩ := loop_selection dev.descriptors
  constructor
  · intro hno
    apply findEndpoints_of_no_intf
    have hf : p.filter is_interface = [] := by
      rw [List.filter_eq_nil_iff]
      intro d hd
      have := hno d (by rw [hs]; exact List.mem_append_left r hd)
      simpa [is_interface] using this
    have := run_body_intf_start p
    rw [hf] at this
    rw [hl]
    simpa using this
  · rintro ⟨d, hd, hdt⟩ hlt
    have hrnil : r = [] := by
      by_contra hne
      have h2 := (hr hne).2
      have : (p.filter is_endpoint).length ≤ (dev.descriptors.filter is_endpoint).length := by
        rw [hs, List.filter_append, List.length_append]
        omega
      omega
    have hp : p = dev.descriptors := by rw [hs, hrnil, List.append_nil]
    rw [hp] at hl
    have hi := run_body_intf_start dev.descriptors
    have he := run_body_ep2_start dev.descriptors
    have hfne : dev.descriptors.filter is_interface ≠ [] := by
      intro hnil
      rw [List.filter_eq_nil_iff] at hnil
      exact hnil d hd (by simp [is_interface, hdt])
    have htail : (dev.descriptors.filter is_endpoint).tail = [] := by
      by_contra hne
      have := (tail_ne_nil_iff _).1 hne
      omega
    rw [htail] at he
    cases hi2 : (run_body dev.descriptors 0 no_pointers).intf with
    | none =>
      rw [hi2] at hi
      have : (dev.descriptors.filter is_interface).getLast? = none := by simpa using hi.symm
      rw [List.getLast?_eq_none_iff] at this
      exact absurd this hfne
    | some i =>
      apply findEndpoints_of_no_ep2 h w dev epRead epWrite i
      · rw [hl, hi2]
      · rw [hl]
        simpa using he

/-- The amended C8 at concrete inputs: a device with two endpoint descriptors
and no interface descriptor, and a device with an interface descriptor and a
single OUT endpoint. -/
theorem findEndpoints_failures_witness :
    AndroidAccessory._findEndpoints good_host empty_world
        ⟨[47], 0x18D1, 0x2D00, [⟨5, 0x81⟩, ⟨5, 0x02⟩]⟩ (-1) (-1) =
      (false, -1, -1,
        ⟨empty_world.usb, empty_world.stderr ++ ["interface not found\n"],
          empty_world.serial⟩) ∧
    AndroidAccessory._findEndpoints good_host empty_world
        ⟨[47], 0x18D1, 0x2D00, [⟨4, 0⟩, ⟨5, 0x02⟩]⟩ (-1) (-1) =
      (false, -1, -1,
        ⟨empty_world.usb, empty_world.stderr ++ ["endpoints not found\n"],
          empty_world.serial⟩) :=
  ⟨(findEndpoints_failures good_host empty_world
      ⟨[47], 0x18D1, 0x2D00, [⟨5, 0x81⟩, ⟨5, 0x02⟩]⟩ (-1) (-1)).1 (by decide),
   (findEndpoints_failures good_host empty_world
      ⟨[47], 0x18D1, 0x2D00, [⟨4, 0⟩, ⟨5, 0x02⟩]⟩ (-1) (-1)).2 (by decide) (by decide)⟩

/-! ## C10: which descriptors `_findEndpoints` selects -/

/-- When `_findEndpoints` succeeds the loop has set its three pointers. -/
theorem loop_of_findEndpoints_true (h : usb_host) (w : world) (dev : usb_device)
    (epRead epWrite : Int)
    (hok : (AndroidAccessory._findEndpoints h w dev epRead epWrite).1 = true) :
    ∃ i p1 p2, AndroidAccessory.loop dev.descriptors 0 no_pointers =
      ⟨some i, some p1, some p2⟩ := by
  unfold AndroidAccessory._findEndpoints at hok
  unfold no_pointers
  cases hv : AndroidAccessory.loop dev.descriptors 0 ⟨none, none, none⟩ with
  | mk intf ep1 ep2 =>
    rw [hv] at hok
    cases intf with
    | none => simp at hok
    | some i =>
      cases ep1 with
      | none => simp at hok
      | some p1 =>
        cases ep2 with
        | none => simp at hok
        | some p2 => exact ⟨i, p1, p2, rfl⟩

/-- Once the descriptors read hold an interface descriptor and two endpoint
descriptors, the loop has set its three pointers. -/
theorem all_set_loop_of_has_all (s : List usb_descriptor) (hs : has_all s) :
    all_set (AndroidAccessory.loop s 0 no_pointers) := by
  obtain ⟨p, r, hpr, hl, -, hr⟩ := loop_selection s
  rw [hl, all_set_run_body_iff]
  by_cases hne : r = []
  · rw [hne, List.append_nil] at hpr
    rw [← hpr]
    exact hs
  · exact hr hne

/-- C10 fails as stated. On `two_interface_device` the first interface
descriptor is interface 0, yet `_findEndpoints` claims interface 1; on
`stray_endpoint_device` the two endpoints after the interface descriptor are
0x81 and 0x02, yet `_findEndpoints` returns 0x83, which stands before the
interface descriptor, and 0x81. -/
theorem findEndpoints_not_first_interface :
    two_interface_device.descriptors.find? is_interface = some ⟨4, 0⟩ ∧
    AndroidAccessory._findEndpoints good_host empty_world two_interface_device (-1) (-1) =
      (true, 129, 2,
        ⟨[usb_call.claim_interface [47, 100, 101, 118, 47, 51] 1 0], [], []⟩) ∧
    ((stray_endpoint_device.descriptors.dropWhile (fun d => !is_interface d)).filter
        is_endpoint).take 2 = [⟨5, 0x81⟩, ⟨5, 0x02⟩] ∧
    AndroidAccessory._findEndpoints good_host empty_world stray_endpoint_device (-1) (-1) =
      (true, 131, 129,
        ⟨[usb_call.claim_interface [47, 100, 101, 118, 47, 52] 0 0], [], []⟩) := by
  decide

/-- C10, amended. When `_findEndpoints` succeeds, let `p` be the shortest
prefix of the descriptors that holds an interface descriptor and two endpoint
descriptors: the interface claimed is the last interface descriptor of `p`, and
the two endpoints assigned are the first endpoint descriptor of the whole
sequence, whether or not it stands after an interface descriptor, and the last
endpoint descriptor of `p`.  Descriptors appended to a sequence that already
holds an interface descriptor and two endpoint descriptors do not change what
`_findEndpoints` does. -/
theorem findEndpoints_selection (h : usb_host) (w : world) (dev : usb_device)
    (epRead epWrite : Int) :
    ((AndroidAccessory._findEndpoints h w dev epRead epWrite).1 = true →
      ∃ p r i e1 e2, dev.descriptors = p ++ r ∧ has_all p ∧
        (∀ p1 q, p = p1 ++ q → q ≠ [] → ¬ has_all p1) ∧
        (p.filter is_interface).getLast? = some i ∧
        (dev.descriptors.filter is_endpoint).head? = some e1 ∧
        (p.filter is_endpoint).getLast? = some e2 ∧
        (AndroidAccessory._findEndpoints h w dev epRead epWrite).2.2.2.usb =
          w.usb ++ [usb_call.claim_interface dev.name i.bInterfaceNumber 0] ∧
        (((AndroidAccessory._findEndpoints h w dev epRead epWrite).2.1 =
              (e1.bEndpointAddress : Int) ∧
            (AndroidAccessory._findEndpoints h w dev epRead epWrite).2.2.1 =
              (e2.bEndpointAddress : Int)) ∨
          ((AndroidAccessory._findEndpoints h w dev epRead epWrite).2.1 =
              (e2.bEndpointAddress : Int) ∧
            (AndroidAccessory._findEndpoints h w dev epRead epWrite).2.2.1 =
              (e1.bEndpointAddress : Int)))) ∧
    (∀ t : List usb_descriptor, has_all dev.descriptors →
      AndroidAccessory._findEndpoints h w
          ⟨dev.name, dev.vendorId, dev.productId, dev.descriptors ++ t⟩ epRead epWrite =
        AndroidAccessory._findEndpoints h w dev epRead epWrite) := by
  constructor
  · intro hok
    obtain ⟨i, p1, p2, hloop⟩ := loop_of_findEndpoints_true h w dev epRead epWrite hok
    obtain ⟨p, r, hs, hl, hmin, -⟩ := loop_selection dev.descriptors
    have hrun : run_body p 0 no_pointers = ⟨some i, some p1, some p2⟩ := by rw [← hl, hloop]
    have hall : has_all p := by
      rw [← all_set_run_body_iff, hrun]
      exact ⟨rfl, rfl, rfl⟩
    have hi := run_body_intf_start p
    have h1 := run_body_ep1_start p
    have h2 := run_body_ep2_start p
    rw [hrun] at hi h1 h2
    rw [tail_getLast?_of_two_le _ hall.2] at h2
    have hne : p.filter is_endpoint ≠ [] := by
      intro hnil
      have := hall.2
      rw [hnil] at this
      simp at this
    have hfe := findEndpoints_of_loop h w dev epRead epWrite i p1 p2 hloop
    rw [hfe] at hok ⊢
    refine ⟨p, r, i.desc, p1.desc, p2.desc, hs, hall, hmin, hi.symm, ?_, h2.symm, ?_⟩
    · rw [hs, List.filter_append, List.head?_append_of_ne_nil _ hne]
      exact h1.symm
    · by_cases hc : h.claim_interface w.usb dev.name i.desc.bInterfaceNumber = 0
      · by_cases hdir : p1.desc.bEndpointAddress &&& 0x80 = 0x80
        · simp [hc, hdir]
        · simp [hc, hdir]
      · simp [hc] at hok
  · intro t hall
    have hset := all_set_loop_of_has_all dev.descriptors hall
    have hloop : AndroidAccessory.loop (dev.descriptors ++ t) 0 no_pointers =
        AndroidAccessory.loop dev.descriptors 0 no_pointers := by
      rw [loop_append, loop_of_all_set _ _ _ hset]
    unfold no_pointers at hloop
    simp only [AndroidAccessory._findEndpoints, usb_device_claim_interface, hloop]

/-- The amended C10 at a concrete input: `accessory_device` already holds an
interface descriptor and two endpoint descriptors, so two more descriptors at
its end change nothing. -/
theorem findEndpoints_selection_witness :
    AndroidAccessory._findEndpoints good_host empty_world
        ⟨accessory_device.name, accessory_device.vendorId, accessory_device.productId,
          accessory_device.descriptors ++ [⟨4, 1⟩, ⟨5, 0x83⟩]⟩ (-1) (-1) =
      AndroidAccessory._findEndpoints good_host empty_world accessory_device (-1) (-1) ∧
    ∃ p r i e1 e2, accessory_device.descriptors = p ++ r ∧ has_all p ∧
      (∀ p1 q, p = p1 ++ q → q ≠ [] → ¬ has_all p1) ∧
      (p.filter is_interface).getLast? = some i ∧
      (accessory_device.descriptors.filter is_endpoint).head? = some e1 ∧
      (p.filter is_endpoint).getLast? = some e2 ∧
      (AndroidAccessory._findEndpoints good_host empty_world accessory_device (-1) (-1)).2.2.2.usb
        = empty_world.usb ++ [usb_call.claim_interface accessory_device.name
          i.bInterfaceNumber 0] ∧
      (((AndroidAccessory._findEndpoints good_host empty_world accessory_device (-1) (-1)).2.1 =
            (e1.bEndpointAddress : Int) ∧
          (AndroidAccessory._findEndpoints good_host empty_world accessory_device (-1) (-1)).2.2.1 =
            (e2.bEndpointAddress : Int)) ∨
        ((AndroidAccessory._findEndpoints good_host empty_world accessory_device (-1) (-1)).2.1 =
            (e2.bEndpointAddress : Int) ∧
          (AndroidAccessory._findEndpoints good_host empty_world accessory_device (-1) (-1)).2.2.1 =
            (e1.bEndpointAddress : Int))) :=
  ⟨(findEndpoints_selection good_host empty_world accessory_device (-1) (-1)).2
      [⟨4, 1⟩, ⟨5, 0x83⟩] (by decide),
   (findEndpoints_selection good_host empty_world accessory_device (-1) (-1)).1 (by decide)⟩

/-! ## C7: the roles of the two endpoints -/

theorem pointers_ok_mono (s : List usb_descriptor) (pos : Nat) (v : AndroidAccessory.found)
    (hv : pointers_ok s pos v) : pointers_ok s (pos + 1) v := by
  obtain ⟨h1, h2, h3⟩ := hv
  refine ⟨fun x hx => ?_, fun x hx => ?_, fun y hy => ?_⟩
  · obtain ⟨a, b⟩ := h1 x hx
    exact ⟨by omega, b⟩
  · obtain ⟨a, b⟩ := h2 x hx
    exact ⟨by omega, b⟩
  · obtain ⟨a, b⟩ := h3 y hy
    exact ⟨by omega, b⟩

theorem pointers_ok_loop_body (s : List usb_descriptor) (pos : Nat) (v : AndroidAccessory.found)
    (d : usb_descriptor) (hd : s[pos]? = some d) (hv : pointers_ok s pos v) :
    pointers_ok s (pos + 1) (AndroidAccessory.loop_body d pos v) := by
  have hm := pointers_ok_mono s pos v hv
  obtain ⟨h1, h2, h3⟩ := hm
  by_cases hi : d.bDescriptorType = USB_DT_INTERFACE
  · rw [loop_body_interface d pos v hi]
    refine ⟨fun x hx => ?_, h2, h3⟩
    simp only [Option.some.injEq] at hx
    subst hx
    exact ⟨by simp, hd, hi⟩
  · by_cases he : d.bDescriptorType = USB_DT_ENDPOINT
    · cases h1e : v.ep1 with
      | none =>
        rw [loop_body_endpoint_first d pos v he h1e]
        refine ⟨h1, fun x hx => ?_, fun y hy => ?_⟩
        · simp only [Option.some.injEq] at hx
          subst hx
          exact ⟨by simp, hd, he⟩
        · obtain ⟨-, -, -, x, hx, -⟩ := h3 y hy
          rw [h1e] at hx
          exact absurd hx (by simp)
      | some x0 =>
        rw [loop_body_endpoint_second d pos v he (by simp [h1e])]
        refine ⟨h1, h2, fun y hy => ?_⟩
        simp only [Option.some.injEq] at hy
        subst hy
        exact ⟨by simp, hd, he, x0, h1e, (hv.2.1 x0 h1e).1⟩
    · rw [loop_body_other d pos v hi he]
      exact ⟨h1, h2, h3⟩

theorem drop_cons_facts (s : List usb_descriptor) (pos : Nat) (d : usb_descriptor)
    (rest : List usb_descriptor) (h : s.drop pos = d :: rest) :
    s[pos]? = some d ∧ s.drop (pos + 1) = rest := by
  constructor
  · have := List.getElem?_drop s pos 0
    rw [h] at this
    simpa using this.symm
  · have := List.drop_drop 1 pos s
    rw [h] at this
    simpa [Nat.add_comm] using this.symm

/-- The pointers stay valid through the loop. -/
theorem pointers_ok_loop (s l : List usb_descriptor) (pos : Nat) (v : AndroidAccessory.found)
    (hl : s.drop pos = l) (hv : pointers_ok s pos v) :
    ∃ n, pointers_ok s n (AndroidAccessory.loop l pos v) := by
  induction l generalizing pos v with
  | nil => exact ⟨pos, hv⟩
  | cons d rest ih =>
    by_cases hs : all_set v
    · rw [loop_of_all_set _ _ _ hs]
      exact ⟨pos, hv⟩
    · rw [loop_of_not_all_set _ _ _ _ hs]
      obtain ⟨hd, hr⟩ := drop_cons_facts s pos d rest hl
      exact ih (pos + 1) _ hr (pointers_ok_loop_body s pos v d hd hv)

theorem pointers_ok_start (s : List usb_descriptor) :
    ∃ n, pointers_ok s n (AndroidAccessory.loop s 0 no_pointers) := by
  apply pointers_ok_loop s s 0 no_pointers (by simp)
  refine ⟨fun x hx => ?_, fun x hx => ?_, fun y hy => ?_⟩ <;> simp [no_pointers] at *

theorem same_positions_all_set (v v1 : AndroidAccessory.found) (h : same_positions v v1) :
    all_set v ↔ all_set v1 := by
  obtain ⟨h1, h2, h3⟩ := h
  obtain ⟨a, b, c⟩ := v
  obtain ⟨a1, b1, c1⟩ := v1
  unfold all_set
  cases a <;> cases a1 <;> cases b <;> cases b1 <;> cases c <;> cases c1 <;> simp_all

theorem same_positions_loop_body (d d1 : usb_descriptor) (pos : Nat)
    (v v1 : AndroidAccessory.found)
    (ht : d.bDescriptorType = d1.bDescriptorType) (h : same_positions v v1) :
    same_positions (AndroidAccessory.loop_body d pos v) (AndroidAccessory.loop_body d1 pos v1) := by
  obtain ⟨h1, h2, h3⟩ := h
  by_cases hi : d.bDescriptorType = USB_DT_INTERFACE
  · rw [loop_body_interface d pos v hi, loop_body_interface d1 pos v1 (ht ▸ hi)]
    exact ⟨rfl, h2, h3⟩
  · by_cases he : d.bDescriptorType = USB_DT_ENDPOINT
    · cases h1e : v.ep1 with
      | none =>
        have h1e1 : v1.ep1 = none := by
          rw [h1e] at h2
          simpa using h2.symm
        rw [loop_body_endpoint_first d pos v he h1e,
          loop_body_endpoint_first d1 pos v1 (ht ▸ he) h1e1]
        exact ⟨h1, rfl, h3⟩
      | some x0 =>
        have h1e1 : v1.ep1.isSome = true := by
          rw [h1e] at h2
          cases hv1 : v1.ep1 with
          | none => rw [hv1] at h2; simp at h2
          | some _ => rfl
        rw [loop_body_endpoint_second d pos v he (by simp [h1e]),
          loop_body_endpoint_second d1 pos v1 (ht ▸ he) h1e1]
        exact ⟨h1, h2, rfl⟩
    · rw [loop_body_other d pos v hi he, loop_body_other d1 pos v1 (ht ▸ hi) (ht ▸ he)]
      exact ⟨h1, h2, h3⟩

/-- The positions the loop selects depend only on the types of the descriptors. -/
theorem same_positions_loop (l l1 : List usb_descriptor) (pos : Nat)
    (v v1 : AndroidAccessory.found)
    (ht : l.map (fun d => d.bDescriptorType) = l1.map (fun d => d.bDescriptorType))
    (h : same_positions v v1) :
    same_positions (AndroidAccessory.loop l pos v) (AndroidAccessory.loop l1 pos v1) := by
  induction l generalizing l1 pos v v1 with
  | nil =>
    have : l1 = [] := by simpa using ht.symm
    subst this
    exact h
  | cons d rest ih =>
    cases l1 with
    | nil => simp at ht
    | cons d1 rest1 =>
      simp only [List.map_cons, List.cons.injEq] at ht
      by_cases hs : all_set v
      · rw [loop_of_all_set _ _ _ hs,
          loop_of_all_set _ _ _ ((same_positions_all_set v v1 h).1 hs)]
        exact h
      · rw [loop_of_not_all_set _ _ _ _ hs,
          loop_of_not_all_set _ _ _ _ (fun hc => hs ((same_positions_all_set v v1 h).2 hc))]
        exact ih rest1 (pos + 1) _ _ ht.2 (same_positions_loop_body d d1 pos v v1 ht.1 h)

theorem lt_length_of_getElem? (s : List usb_descriptor) (n : Nat) (d : usb_descriptor)
    (h : s[n]? = some d) : n < s.length := by
  obtain ⟨hn, -⟩ := List.getElem?_eq_some_iff.1 h
  exact hn

theorem desc_ptr_eq (x y : AndroidAccessory.desc_ptr) (hp : x.pos = y.pos)
    (hd : x.desc = y.desc) : x = y := by
  cases x
  cases y
  simp_all

theorem some_of_map_pos (o : Option AndroidAccessory.desc_ptr) (n : Nat)
    (h : some n = o.map (fun x => x.pos)) : ∃ x, o = some x ∧ x.pos = n := by
  cases o with
  | none => simp at h
  | some x => exact ⟨x, rfl, by simpa using h.symm⟩

/-- Exchanging the two endpoint descriptors the loop selected makes it select
the same positions, which now hold each other's descriptor. -/
theorem loop_swap (s : List usb_descriptor) (i p1 p2 : AndroidAccessory.desc_ptr)
    (hloop : AndroidAccessory.loop s 0 no_pointers = ⟨some i, some p1, some p2⟩) :
    AndroidAccessory.loop ((s.set p1.pos p2.desc).set p2.pos p1.desc) 0 no_pointers =
      ⟨some i, some ⟨p1.pos, p2.desc⟩, some ⟨p2.pos, p1.desc⟩⟩ := by
  obtain ⟨n, hok⟩ := pointers_ok_start s
  rw [hloop] at hok
  obtain ⟨-, hi, hit⟩ := hok.1 i rfl
  obtain ⟨-, h1, h1t⟩ := hok.2.1 p1 rfl
  obtain ⟨-, h2, h2t, x, hx, hlt⟩ := hok.2.2 p2 rfl
  simp only [Option.some.injEq] at hx
  subst hx
  have hl1 := lt_length_of_getElem? s _ _ h1
  have hl2 := lt_length_of_getElem? s _ _ h2
  have hne12 : p1.pos ≠ p2.pos := by omega
  have hnei1 : p1.pos ≠ i.pos := by
    intro he
    rw [he, hi] at h1
    simp only [Option.some.injEq] at h1
    rw [h1, h1t] at hit
    exact absurd hit (by decide)
  have hnei2 : p2.pos ≠ i.pos := by
    intro he
    rw [he, hi] at h2
    simp only [Option.some.injEq] at h2
    rw [h2, h2t] at hit
    exact absurd hit (by decide)
  have g2 : ((s.set p1.pos p2.desc).set p2.pos p1.desc)[p2.pos]? = some p1.desc :=
    List.getElem?_set_self (by rw [List.length_set]; exact hl2)
  have g1 : ((s.set p1.pos p2.desc).set p2.pos p1.desc)[p1.pos]? = some p2.desc := by
    rw [List.getElem?_set_ne (Ne.symm hne12)]
    exact List.getElem?_set_self hl1
  have gi : ((s.set p1.pos p2.desc).set p2.pos p1.desc)[i.pos]? = some i.desc := by
    rw [List.getElem?_set_ne hnei2, List.getElem?_set_ne hnei1]
    exact hi
  have htypes : s.map (fun d => d.bDescriptorType) =
      ((s.set p1.pos p2.desc).set p2.pos p1.desc).map (fun d => d.bDescriptorType) := by
    apply List.ext_getElem?
    intro k
    rw [List.getElem?_map, List.getElem?_map]
    by_cases hk2 : k = p2.pos
    · rw [hk2, g2, h2]
      simp [h1t, h2t]
    · by_cases hk1 : k = p1.pos
      · rw [hk1, g1, h1]
        simp [h1t, h2t]
      · rw [List.getElem?_set_ne (Ne.symm hk2), List.getElem?_set_ne (Ne.symm hk1)]
  have hsame := same_positions_loop s ((s.set p1.pos p2.desc).set p2.pos p1.desc) 0 no_pointers
    no_pointers htypes ⟨rfl, rfl, rfl⟩
  rw [hloop] at hsame
  obtain ⟨m, hok1⟩ := pointers_ok_start ((s.set p1.pos p2.desc).set p2.pos p1.desc)
  obtain ⟨a, ha, hap⟩ := some_of_map_pos _ _ hsame.1
  obtain ⟨b, hb, hbp⟩ := some_of_map_pos _ _ hsame.2.1
  obtain ⟨c, hc, hcp⟩ := some_of_map_pos _ _ hsame.2.2
  obtain ⟨-, hai, -⟩ := hok1.1 a ha
  obtain ⟨-, hbi, -⟩ := hok1.2.1 b hb
  obtain ⟨-, hci, -⟩ := hok1.2.2 c hc
  rw [hap, gi] at hai
  rw [hbp, g1] at hbi
  rw [hcp, g2] at hci
  simp only [Option.some.injEq] at hai hbi hci
  have ea : a = i := desc_ptr_eq _ _ hap hai.symm
  have eb : b = ⟨p1.pos, p2.desc⟩ := desc_ptr_eq _ _ hbp hbi.symm
  have ec : c = ⟨p2.pos, p1.desc⟩ := desc_ptr_eq _ _ hcp hci.symm
  cases hv : AndroidAccessory.loop ((s.set p1.pos p2.desc).set p2.pos p1.desc) 0 no_pointers with
  | mk a1 b1 c1 =>
    rw [hv] at ha hb hc
    simp only at ha hb hc
    rw [ha, hb, hc, ea, eb, ec]

/-- C7. When `_findEndpoints` succeeds and, of the two endpoint descriptors it
selected, one has the IN bit 0x80 set and the other has it clear, the read
endpoint returned is the address of the IN one and the write endpoint the
address of the OUT one; and exchanging the two descriptors in the sequence
changes nothing in what `_findEndpoints` does and returns. -/
theorem findEndpoints_roles (h : usb_host) (w : world) (dev : usb_device)
    (epRead epWrite : Int) (i p1 p2 pin pout : AndroidAccessory.desc_ptr)
    (hsel : AndroidAccessory.loop dev.descriptors 0 ⟨none, none, none⟩ =
      ⟨some i, some p1, some p2⟩)
    (hok : (AndroidAccessory._findEndpoints h w dev epRead epWrite).1 = true)
    (hpair : (p1 = pin ∧ p2 = pout) ∨ (p1 = pout ∧ p2 = pin))
    (hin : pin.desc.bEndpointAddress &&& 0x80 = 0x80)
    (hout : pout.desc.bEndpointAddress &&& 0x80 = 0) :
    (AndroidAccessory._findEndpoints h w dev epRead epWrite).2.1 =
      (pin.desc.bEndpointAddress : Int) ∧
    (AndroidAccessory._findEndpoints h w dev epRead epWrite).2.2.1 =
      (pout.desc.bEndpointAddress : Int) ∧
    AndroidAccessory._findEndpoints h w
        ⟨dev.name, dev.vendorId, dev.productId,
          (dev.descriptors.set p1.pos p2.desc).set p2.pos p1.desc⟩ epRead epWrite =
      AndroidAccessory._findEndpoints h w dev epRead epWrite := by
  have hswap := loop_swap dev.descriptors i p1 p2 hsel
  have e1 := findEndpoints_of_loop h w dev epRead epWrite i p1 p2 hsel
  have e2 := findEndpoints_of_loop h w
    ⟨dev.name, dev.vendorId, dev.productId,
      (dev.descriptors.set p1.pos p2.desc).set p2.pos p1.desc⟩ epRead epWrite
    i ⟨p1.pos, p2.desc⟩ ⟨p2.pos, p1.desc⟩ hswap
  have hnot : ¬ (pout.desc.bEndpointAddress &&& 0x80 = 0x80) := by
    rw [hout]; decide
  rw [e2, e1]
  rw [e1] at hok
  by_cases hc : h.claim_interface w.usb dev.name i.desc.bInterfaceNumber = 0
  · rcases hpair with ⟨ha, hb⟩ | ⟨ha, hb⟩
    · subst ha hb
      simp [hc, hin, hnot]
    · subst ha hb
      simp [hc, hin, hnot]
  · simp [hc] at hok

/-- C7 at a concrete input: `accessory_device` has its IN endpoint 0x81 at
position 2 and its OUT endpoint 0x02 at position 3. -/
theorem findEndpoints_roles_witness :
    (AndroidAccessory._findEndpoints good_host empty_world accessory_device (-1) (-1)).2.1 =
      (((⟨2, ⟨5, 0x81⟩⟩ : AndroidAccessory.desc_ptr).desc.bEndpointAddress : Nat) : Int) ∧
    (AndroidAccessory._findEndpoints good_host empty_world accessory_device (-1) (-1)).2.2.1 =
      (((⟨3, ⟨5, 0x02⟩⟩ : AndroidAccessory.desc_ptr).desc.bEndpointAddress : Nat) : Int) ∧
    AndroidAccessory._findEndpoints good_host empty_world
        ⟨accessory_device.name, accessory_device.vendorId, accessory_device.productId,
          (accessory_device.descriptors.set
            (⟨2, ⟨5, 0x81⟩⟩ : AndroidAccessory.desc_ptr).pos
            (⟨3, ⟨5, 0x02⟩⟩ : AndroidAccessory.desc_ptr).desc).set
            (⟨3, ⟨5, 0x02⟩⟩ : AndroidAccessory.desc_ptr).pos
            (⟨2, ⟨5, 0x81⟩⟩ : AndroidAccessory.desc_ptr).desc⟩ (-1) (-1) =
      AndroidAccessory._findEndpoints good_host empty_world accessory_device (-1) (-1) :=
  findEndpoints_roles good_host empty_world accessory_device (-1) (-1)
    ⟨1, ⟨4, 0⟩⟩ ⟨2, ⟨5, 0x81⟩⟩ ⟨3, ⟨5, 0x02⟩⟩ ⟨2, ⟨5, 0x81⟩⟩ ⟨3, ⟨5, 0x02⟩⟩
    (by decide) (by decide) (Or.inl ⟨rfl, rfl⟩) (by decide) (by decide)
